import Mathlib

/-!
Verification of the CiviTest quiz-assembly and scoring engine.

The definitions below are a shallow embedding of the TypeScript sources:

* `src/types/index.ts` — data model (`Question`, `TOPICS`,
  `SITUATIONAL_TOPIC_CONFIG`, `QUIZ_CONFIG`, session/result records);
* `src/utils/questions.ts` — `shuffle`, `shuffleChoices`, `selectQuestions`,
  `calculatePercentage`;
* `src/stores/quizStore.ts` — the `quizActions` state machine
  (`startQuiz`, `answerQuestion`, `goToQuestion`, `nextQuestion`,
  `prevQuestion`, `endQuiz`);
* `src/utils/localStorage.ts` — the history store (`addQuizResult`,
  `addUsedQuestionSet`, `saveQuizHistory`, `importQuizHistory`);
* `src/lib/schemas.ts` — the zod validation schemas
  (`validateQuizHistory` with its nested record schemas).

Randomness (`Math.random()`) is modelled by threading an arbitrary
function `rand : Nat → Nat`; at loop index `i` the source draws
`Math.floor(Math.random() * (i + 1))`, an arbitrary value in `[0, i]`,
which is modelled as `rand i % (i + 1)`.  Every theorem quantifies over
all such functions, so it covers every possible draw.  Distinct calls to
`shuffle` draw independent randomness, modelled by a family
`R : Nat → Nat → Nat` with a statically fixed index per call site.

JavaScript numbers are IEEE-754 binary64 values; where the source does
fractional arithmetic (`calculatePercentage`) the embedding rounds each
intermediate result to the nearest representable binary64 value
(`divToDouble`, `dyadicToDouble`), so the model computes bit-for-bit what
the JS engine computes on the ranges that arise here (no overflow or
subnormals).
-/

/-! ## Data model (src/types/index.ts) -/

inductive QuestionType where
  | knowledge
  | situational
deriving DecidableEq, Repr

inductive TopicId where
  | principes_valeurs
  | institutions
  | droits_devoirs
  | histoire_geographie_culture
  | vivre_france
deriving DecidableEq, Repr

inductive Difficulty where
  | easy
  | medium
  | hard
deriving DecidableEq, Repr

structure Choice where
  label : String
  isCorrect : Bool
deriving DecidableEq, Repr

structure Question where
  id : String
  question : String
  type : QuestionType
  topic : TopicId
  choices : List Choice
  explanation : String
  difficulty : Difficulty
deriving DecidableEq, Repr

structure TopicConfig where
  id : TopicId
  name : String
  nameShort : String
  targetCount : Nat
  color : String
deriving DecidableEq, Repr

/-- The five fixed topics with their per-quiz target counts (11, 6, 11, 8, 4). -/
def TOPICS : List TopicConfig :=
  [ { id := TopicId.principes_valeurs
    , name := "Principes et valeurs de la République"
    , nameShort := "Principes & Valeurs"
    , targetCount := 11
    , color := "#002654" }
  , { id := TopicId.institutions
    , name := "Système institutionnel et politique"
    , nameShort := "Institutions"
    , targetCount := 6
    , color := "#1E40AF" }
  , { id := TopicId.droits_devoirs
    , name := "Droits et devoirs"
    , nameShort := "Droits & Devoirs"
    , targetCount := 11
    , color := "#059669" }
  , { id := TopicId.histoire_geographie_culture
    , name := "Histoire, géographie et culture"
    , nameShort := "Histoire & Culture"
    , targetCount := 8
    , color := "#9333EA" }
  , { id := TopicId.vivre_france
    , name := "Vivre dans la société française"
    , nameShort := "Vie Quotidienne"
    , targetCount := 4
    , color := "#CE1126" } ]

/-- `SITUATIONAL_TOPIC_CONFIG[topicId] || 0`: the situational sub-quota of a
topic (6 for `principes_valeurs` and `droits_devoirs`, 0 for the rest). -/
def SITUATIONAL_TOPIC_CONFIG : TopicId → Nat
  | TopicId.principes_valeurs => 6
  | TopicId.droits_devoirs => 6
  | _ => 0

/-- `QUIZ_CONFIG.totalQuestions` -/
def QUIZ_CONFIG_totalQuestions : Nat := 40

/-- `QUIZ_CONFIG.timeLimit = 45 * 60` seconds -/
def QUIZ_CONFIG_timeLimit : Nat := 45 * 60

/-- `QUIZ_CONFIG.passingScore * 100`.  The source stores `passingScore = 0.8`
and compares `percentage >= QUIZ_CONFIG.passingScore * 100`; in binary64
arithmetic `0.8 * 100` evaluates to exactly `80` (the exact product
80.00000000000000444… rounds down to `80`), so the comparison threshold is
the integer 80. -/
def QUIZ_CONFIG_passingThreshold : Nat := 80

/-! ## Fisher–Yates shuffle (src/utils/questions.ts, `shuffle`)

The source copies the input array and, for `i` from `length - 1` down
to `1`, swaps positions `i` and `j = Math.floor(Math.random() * (i + 1))`.
`listSwap` is the in-bounds swap of two positions of a list. -/

/-- Swap the elements at positions `i` and `j` (no-op if either is out of
bounds, which never happens in `shuffle`). -/
def listSwap (l : List α) (i j : Nat) : List α :=
  match l[i]?, l[j]? with
  | some x, some y => (l.set i y).set j x
  | _, _ => l

/-- The Fisher–Yates loop: process indices `n, n-1, …, 1`, swapping index
`i` with `rand i % (i + 1) ∈ [0, i]`. -/
def fisherYates (rand : Nat → Nat) : Nat → List α → List α
  | 0, l => l
  | i + 1, l => fisherYates rand i (listSwap l (i + 1) (rand (i + 1) % (i + 2)))

/-- `shuffle(array)`: Fisher–Yates on a copy, starting at index `length - 1`. -/
def shuffle (rand : Nat → Nat) (l : List α) : List α :=
  fisherYates rand (l.length - 1) l

/-! ### The shuffle output is a permutation of its input -/

theorem cons_set_perm (l : List α) (j : Nat) (a y : α) (h : l[j]? = some y) :
    (y :: l.set j a).Perm (a :: l) := by
  induction l generalizing j with
  | nil => simp at h
  | cons b t ih =>
    cases j with
    | zero =>
      simp only [List.getElem?_cons_zero, Option.some.injEq] at h
      subst h
      simpa using List.Perm.swap a b t
    | succ j =>
      simp only [List.getElem?_cons_succ] at h
      have step1 : (y :: b :: t.set j a).Perm (b :: y :: t.set j a) :=
        List.Perm.swap b y _
      have step2 : (b :: y :: t.set j a).Perm (b :: a :: t) :=
        List.Perm.cons b (ih j h)
      have step3 : (b :: a :: t).Perm (a :: b :: t) := List.Perm.swap a b t
      simpa using (step1.trans step2).trans step3

theorem set_self_of_getElem? (l : List α) (i : Nat) (x : α) (h : l[i]? = some x) :
    l.set i x = l := by
  induction l generalizing i with
  | nil => simp at h
  | cons b t ih =>
    cases i with
    | zero => simp_all
    | succ i =>
      simp only [List.getElem?_cons_succ] at h
      simp [List.set, ih i h]

theorem listSwap_perm (l : List α) (i j : Nat) : (listSwap l i j).Perm l := by
  cases hi : l[i]? with
  | none => simp [listSwap, hi]
  | some x =>
    cases hj : l[j]? with
    | none => simp [listSwap, hi, hj]
    | some y =>
      simp only [listSwap, hi, hj]
      by_cases hij : i = j
      · subst hij
        rw [hi] at hj
        cases hj
        rw [List.set_set, set_self_of_getElem? l i x hi]
      · have hj' : (l.set i y)[j]? = some y := by
          rw [List.getElem?_set_ne (by omega)]
          exact hj
        have h1 : (y :: (l.set i y).set j x).Perm (x :: l.set i y) :=
          cons_set_perm (l.set i y) j x y hj'
        have h2 : (x :: l.set i y).Perm (y :: l) := cons_set_perm l i y x hi
        exact (h1.trans h2).cons_inv

theorem fisherYates_perm (rand : Nat → Nat) (n : Nat) (l : List α) :
    (fisherYates rand n l).Perm l := by
  induction n generalizing l with
  | zero => simp [fisherYates]
  | succ i ih =>
    exact (ih _).trans (listSwap_perm l (i + 1) (rand (i + 1) % (i + 2)))

theorem shuffle_perm (rand : Nat → Nat) (l : List α) : (shuffle rand l).Perm l :=
  fisherYates_perm rand (l.length - 1) l

theorem shuffle_length (rand : Nat → Nat) (l : List α) :
    (shuffle rand l).length = l.length :=
  (shuffle_perm rand l).length_eq

theorem mem_shuffle (rand : Nat → Nat) (l : List α) (x : α) :
    x ∈ shuffle rand l ↔ x ∈ l :=
  (shuffle_perm rand l).mem_iff

theorem shuffle_countP (rand : Nat → Nat) (l : List α) (p : α → Bool) :
    (shuffle rand l).countP p = l.countP p :=
  (shuffle_perm rand l).countP_eq p

/-! ## Choice shuffler (src/utils/questions.ts, `shuffleChoices`) -/

structure ShuffledQuestion extends Question where
  shuffledChoices : List Choice
  originalToShuffledMap : List Nat
deriving DecidableEq, Repr

/-- Default used to model in-bounds JS indexing `question.choices[i]`; every
index actually looked up comes from a permutation of `0 … length - 1`, so the
default is never produced. -/
def defaultChoice : Choice := { label := "", isCorrect := false }

/-- `shuffleChoices(question)`: shuffle the index list `[0, …, n-1]`,
materialize the choices in that order, and record for each original index
where it landed (`indexOf` always finds the index, since the shuffled list is
a permutation of the index list, so the JS `-1` branch is unreachable). -/
def shuffleChoices (rand : Nat → Nat) (question : Question) : ShuffledQuestion :=
  let indices := List.range question.choices.length
  let shuffledIndices := shuffle rand indices
  let shuffledChoices := shuffledIndices.map (fun i => question.choices.getD i defaultChoice)
  let originalToShuffledMap := indices.map (fun originalIndex => shuffledIndices.indexOf originalIndex)
  { toQuestion := question
  , shuffledChoices := shuffledChoices
  , originalToShuffledMap := originalToShuffledMap }

theorem map_getD_range (l : List α) (d : α) :
    (List.range l.length).map (fun i => l.getD i d) = l := by
  induction l with
  | nil => simp
  | cons a t ih =>
    have hc : ((fun i => (a :: t).getD i d) ∘ Nat.succ) = (fun i => t.getD i d) := by
      funext i
      rfl
    simp only [List.length_cons, List.range_succ_eq_map, List.map_cons, List.map_map, hc, ih]
    rfl

/-! ## Question selector (src/utils/questions.ts, `selectQuestions`) -/

/-- The body of the per-topic loop of `selectQuestions`.  `R4` supplies the
fresh randomness for the up to four `shuffle` calls of one iteration;
`topicQuestions` is `questionsByTopic.get(topic.id) || []`;
`recentlyUsedIds` is the flattened exclusion set (membership in the JS `Set`
is membership in this list). -/
def selectForTopic (R4 : Nat → Nat → Nat) (topic : TopicConfig)
    (recentlyUsedIds : List String) (topicQuestions : List Question) : List Question :=
  let targetCount := topic.targetCount
  let situationalRequired := SITUATIONAL_TOPIC_CONFIG topic.id
  if situationalRequired > 0 then
    let situationalQuestions := topicQuestions.filter (fun q => q.type == QuestionType.situational)
    let knowledgeQuestions := topicQuestions.filter (fun q => q.type == QuestionType.knowledge)
    let freshSituational := situationalQuestions.filter (fun q => !(recentlyUsedIds.contains q.id))
    let usedSituational := situationalQuestions.filter (fun q => recentlyUsedIds.contains q.id)
    let freshKnowledge := knowledgeQuestions.filter (fun q => !(recentlyUsedIds.contains q.id))
    let usedKnowledge := knowledgeQuestions.filter (fun q => recentlyUsedIds.contains q.id)
    let availableSituational := shuffle (R4 0) freshSituational ++ shuffle (R4 1) usedSituational
    let selectedSituational := availableSituational.take situationalRequired
    let knowledgeCount := targetCount - selectedSituational.length
    let availableKnowledge := shuffle (R4 2) freshKnowledge ++ shuffle (R4 3) usedKnowledge
    let selectedKnowledge := availableKnowledge.take knowledgeCount
    selectedSituational ++ selectedKnowledge
  else
    let freshQuestions := topicQuestions.filter (fun q => !(recentlyUsedIds.contains q.id))
    let usedQuestions := topicQuestions.filter (fun q => recentlyUsedIds.contains q.id)
    let availableQuestions := shuffle (R4 0) freshQuestions ++ shuffle (R4 1) usedQuestions
    availableQuestions.take targetCount

/-- The `for (const topic of TOPICS)` loop, accumulating
`selectedQuestions.push(...)`.  `t` numbers the iterations so that each one
gets its own slice `R (5*t+k)` of the randomness family. -/
def selectLoop (R : Nat → Nat → Nat) (recentlyUsedIds : List String)
    (allQuestions : List Question) : Nat → List TopicConfig → List Question
  | _, [] => []
  | t, topic :: rest =>
    selectForTopic (fun k => R (5 * t + k)) topic recentlyUsedIds
        (allQuestions.filter (fun q => q.topic == topic.id))
      ++ selectLoop R recentlyUsedIds allQuestions (t + 1) rest

/-- `selectQuestions(allQuestions, usedQuestionSets = [])`: the exclusion set
is the flattening of the last 3 used-id sets (`usedQuestionSets.slice(-3).flat()`),
each topic contributes its quota preferring fresh questions, and the combined
list is shuffled once more before being returned. -/
def selectQuestions (R : Nat → Nat → Nat) (allQuestions : List Question)
    (usedQuestionSets : List (List String)) : List Question :=
  let recentlyUsedIds := (usedQuestionSets.drop (usedQuestionSets.length - 3)).flatten
  shuffle (R 25) (selectLoop R recentlyUsedIds allQuestions 0 TOPICS)

/-! ### Per-topic selection lemmas -/

theorem selectForTopic_subset (R4 : Nat → Nat → Nat) (tc : TopicConfig)
    (rid : List String) (tq : List Question) (q : Question)
    (h : q ∈ selectForTopic R4 tc rid tq) : q ∈ tq := by
  simp only [selectForTopic] at h
  split_ifs at h with hs
  · rcases List.mem_append.1 h with h1 | h1 <;>
      rcases List.mem_append.1 (List.mem_of_mem_take h1) with h2 | h2 <;>
      rw [mem_shuffle] at h2 <;>
      exact List.mem_of_mem_filter (List.mem_of_mem_filter h2)
  · rcases List.mem_append.1 (List.mem_of_mem_take h) with h2 | h2 <;>
      rw [mem_shuffle] at h2 <;>
      exact List.mem_of_mem_filter h2

theorem selectForTopic_length_nosit (R4 : Nat → Nat → Nat) (tc : TopicConfig)
    (rid : List String) (tq : List Question)
    (h0 : SITUATIONAL_TOPIC_CONFIG tc.id = 0)
    (hn : tc.targetCount ≤ tq.length) :
    (selectForTopic R4 tc rid tq).length = tc.targetCount := by
  have hpart := @List.length_eq_length_filter_add _ tq (fun q => rid.contains q.id)
  simp only [selectForTopic, h0]
  simp only [gt_iff_lt, Nat.lt_irrefl, if_false, List.length_take, List.length_append,
    shuffle_length]
  omega

theorem selectForTopic_length_sit (R4 : Nat → Nat → Nat) (tc : TopicConfig)
    (rid : List String) (tq : List Question)
    (h0 : 0 < SITUATIONAL_TOPIC_CONFIG tc.id)
    (hq : SITUATIONAL_TOPIC_CONFIG tc.id ≤ tc.targetCount)
    (hsit : SITUATIONAL_TOPIC_CONFIG tc.id ≤
      (tq.filter (fun q => q.type == QuestionType.situational)).length)
    (hkn : tc.targetCount - SITUATIONAL_TOPIC_CONFIG tc.id ≤
      (tq.filter (fun q => q.type == QuestionType.knowledge)).length) :
    (selectForTopic R4 tc rid tq).length = tc.targetCount := by
  have hpartS := @List.length_eq_length_filter_add _
    (tq.filter (fun q => q.type == QuestionType.situational))
    (fun q => rid.contains q.id)
  have hpartK := @List.length_eq_length_filter_add _
    (tq.filter (fun q => q.type == QuestionType.knowledge))
    (fun q => rid.contains q.id)
  simp only [selectForTopic]
  rw [if_pos h0]
  simp only [List.length_append, List.length_take, shuffle_length]
  omega

theorem countP_take_shuffles_all (p : α → Bool) (r1 r2 : Nat → Nat)
    (A B : List α) (n : Nat) (hA : ∀ a ∈ A, p a = true) (hB : ∀ a ∈ B, p a = true) :
    ((shuffle r1 A ++ shuffle r2 B).take n).countP p = min n (A.length + B.length) := by
  have hall : ∀ a ∈ (shuffle r1 A ++ shuffle r2 B).take n, p a = true := by
    intro a ha
    rcases List.mem_append.1 (List.mem_of_mem_take ha) with h | h <;> rw [mem_shuffle] at h
    · exact hA a h
    · exact hB a h
  rw [List.countP_eq_length.2 hall]
  simp only [List.length_take, List.length_append, shuffle_length]

theorem countP_take_shuffles_none (p : α → Bool) (r1 r2 : Nat → Nat)
    (A B : List α) (n : Nat) (hA : ∀ a ∈ A, p a = false) (hB : ∀ a ∈ B, p a = false) :
    ((shuffle r1 A ++ shuffle r2 B).take n).countP p = 0 := by
  refine List.countP_eq_zero.2 (fun a ha => ?_)
  rcases List.mem_append.1 (List.mem_of_mem_take ha) with h | h <;> rw [mem_shuffle] at h
  · simp [hA a h]
  · simp [hB a h]

theorem type_beq_ne (q : Question) (hq : (q.type == QuestionType.situational) = true) :
    (q.type == QuestionType.knowledge) = false := by
  cases h : q.type <;> simp_all

theorem type_beq_ne' (q : Question) (hq : (q.type == QuestionType.knowledge) = true) :
    (q.type == QuestionType.situational) = false := by
  cases h : q.type <;> simp_all

theorem selectForTopic_countP_sit (R4 : Nat → Nat → Nat) (tc : TopicConfig)
    (rid : List String) (tq : List Question)
    (h0 : 0 < SITUATIONAL_TOPIC_CONFIG tc.id) :
    (selectForTopic R4 tc rid tq).countP (fun q => q.type == QuestionType.situational) =
      min (SITUATIONAL_TOPIC_CONFIG tc.id)
        (tq.filter (fun q => q.type == QuestionType.situational)).length ∧
    (selectForTopic R4 tc rid tq).countP (fun q => q.type == QuestionType.knowledge) =
      min (tc.targetCount - min (SITUATIONAL_TOPIC_CONFIG tc.id)
            (tq.filter (fun q => q.type == QuestionType.situational)).length)
        (tq.filter (fun q => q.type == QuestionType.knowledge)).length := by
  have hpartS := @List.length_eq_length_filter_add _
    (tq.filter (fun q => q.type == QuestionType.situational))
    (fun q => rid.contains q.id)
  have hpartK := @List.length_eq_length_filter_add _
    (tq.filter (fun q => q.type == QuestionType.knowledge))
    (fun q => rid.contains q.id)
  have hSfresh : ∀ q ∈ (tq.filter (fun q => q.type == QuestionType.situational)).filter
      (fun q => !(rid.contains q.id)), (q.type == QuestionType.situational) = true :=
    fun q hq => (List.mem_filter.1 (List.mem_of_mem_filter hq)).2
  have hSused : ∀ q ∈ (tq.filter (fun q => q.type == QuestionType.situational)).filter
      (fun q => rid.contains q.id), (q.type == QuestionType.situational) = true :=
    fun q hq => (List.mem_filter.1 (List.mem_of_mem_filter hq)).2
  have hKfresh : ∀ q ∈ (tq.filter (fun q => q.type == QuestionType.knowledge)).filter
      (fun q => !(rid.contains q.id)), (q.type == QuestionType.knowledge) = true :=
    fun q hq => (List.mem_filter.1 (List.mem_of_mem_filter hq)).2
  have hKused : ∀ q ∈ (tq.filter (fun q => q.type == QuestionType.knowledge)).filter
      (fun q => rid.contains q.id), (q.type == QuestionType.knowledge) = true :=
    fun q hq => (List.mem_filter.1 (List.mem_of_mem_filter hq)).2
  simp only [selectForTopic]
  rw [if_pos h0]
  constructor
  · rw [List.countP_append,
      countP_take_shuffles_all _ _ _ _ _ _ hSfresh hSused,
      countP_take_shuffles_none _ _ _ _ _ _
        (fun q hq => type_beq_ne' q (hKfresh q hq))
        (fun q hq => type_beq_ne' q (hKused q hq))]
    omega
  · rw [List.countP_append,
      countP_take_shuffles_none _ _ _ _ _ _
        (fun q hq => type_beq_ne q (hSfresh q hq))
        (fun q hq => type_beq_ne q (hSused q hq)),
      countP_take_shuffles_all _ _ _ _ _ _ hKfresh hKused]
    simp only [List.length_take, List.length_append, shuffle_length]
    omega

theorem selectForTopic_fresh_nosit (R4 : Nat → Nat → Nat) (tc : TopicConfig)
    (rid : List String) (tq : List Question)
    (h0 : SITUATIONAL_TOPIC_CONFIG tc.id = 0)
    (hfresh : tc.targetCount ≤ (tq.filter (fun q => !(rid.contains q.id))).length) :
    ∀ q ∈ selectForTopic R4 tc rid tq, rid.contains q.id = false := by
  intro q hq
  simp only [selectForTopic, h0] at hq
  rw [if_neg (by omega)] at hq
  rw [List.take_append_of_le_length (by rw [shuffle_length]; exact hfresh)] at hq
  have hmem : q ∈ tq.filter (fun q => !(rid.contains q.id)) :=
    (mem_shuffle _ _ _).1 (List.mem_of_mem_take hq)
  have := (List.mem_filter.1 hmem).2
  simpa using this

theorem selectForTopic_fresh_sit (R4 : Nat → Nat → Nat) (tc : TopicConfig)
    (rid : List String) (tq : List Question)
    (h0 : 0 < SITUATIONAL_TOPIC_CONFIG tc.id)
    (hfs : SITUATIONAL_TOPIC_CONFIG tc.id ≤
      ((tq.filter (fun q => q.type == QuestionType.situational)).filter
        (fun q => !(rid.contains q.id))).length)
    (hfk : tc.targetCount - SITUATIONAL_TOPIC_CONFIG tc.id ≤
      ((tq.filter (fun q => q.type == QuestionType.knowledge)).filter
        (fun q => !(rid.contains q.id))).length) :
    ∀ q ∈ selectForTopic R4 tc rid tq, rid.contains q.id = false := by
  intro q hq
  simp only [selectForTopic] at hq
  rw [if_pos h0] at hq
  have hlen1 : SITUATIONAL_TOPIC_CONFIG tc.id ≤
      (shuffle (R4 0) ((tq.filter (fun q => q.type == QuestionType.situational)).filter
        (fun q => !(rid.contains q.id)))).length := by
    rw [shuffle_length]
    exact hfs
  rw [List.take_append_of_le_length hlen1] at hq
  have hlen : ((shuffle (R4 0) ((tq.filter (fun q => q.type == QuestionType.situational)).filter
      (fun q => !(rid.contains q.id)))).take (SITUATIONAL_TOPIC_CONFIG tc.id)).length =
      SITUATIONAL_TOPIC_CONFIG tc.id := by
    rw [List.length_take, shuffle_length]
    omega
  rw [hlen] at hq
  rcases List.mem_append.1 hq with h1 | h1
  · have hmem := (mem_shuffle _ _ _).1 (List.mem_of_mem_take h1)
    have := (List.mem_filter.1 hmem).2
    simpa using this
  · rw [List.take_append_of_le_length (by rw [shuffle_length]; exact hfk)] at h1
    have hmem := (mem_shuffle _ _ _).1 (List.mem_of_mem_take h1)
    have := (List.mem_filter.1 hmem).2
    simpa using this

theorem selectForTopic_topic_eq (R4 : Nat → Nat → Nat) (tc : TopicConfig)
    (rid : List String) (bank : List Question) (q : Question)
    (hq : q ∈ selectForTopic R4 tc rid (bank.filter (fun q => q.topic == tc.id))) :
    q.topic = tc.id := by
  have := (List.mem_filter.1 (selectForTopic_subset _ _ _ _ q hq)).2
  exact eq_of_beq this

theorem selectForTopic_countP_and_self (R4 : Nat → Nat → Nat) (tc : TopicConfig)
    (rid : List String) (bank : List Question) (p : Question → Bool) :
    (selectForTopic R4 tc rid (bank.filter (fun q => q.topic == tc.id))).countP
        (fun q => q.topic == tc.id && p q) =
      (selectForTopic R4 tc rid (bank.filter (fun q => q.topic == tc.id))).countP p := by
  refine List.countP_congr (fun q hq => ?_)
  have ht : q.topic = tc.id := selectForTopic_topic_eq R4 tc rid bank q hq
  simp [ht]

theorem selectForTopic_countP_and_other (R4 : Nat → Nat → Nat) (tc : TopicConfig)
    (rid : List String) (bank : List Question) (p : Question → Bool) (tid : TopicId)
    (hne : tc.id ≠ tid) :
    (selectForTopic R4 tc rid (bank.filter (fun q => q.topic == tc.id))).countP
      (fun q => q.topic == tid && p q) = 0 := by
  refine List.countP_eq_zero.2 (fun q hq hcontra => ?_)
  have ht : q.topic = tc.id := selectForTopic_topic_eq R4 tc rid bank q hq
  rw [ht] at hcontra
  simp only [Bool.and_eq_true, beq_iff_eq] at hcontra
  exact hne hcontra.1

theorem selectForTopic_countP_topic_self (R4 : Nat → Nat → Nat) (tc : TopicConfig)
    (rid : List String) (bank : List Question) :
    (selectForTopic R4 tc rid (bank.filter (fun q => q.topic == tc.id))).countP
        (fun q => q.topic == tc.id) =
      (selectForTopic R4 tc rid (bank.filter (fun q => q.topic == tc.id))).length := by
  refine List.countP_eq_length.2 (fun q hq => ?_)
  have ht : q.topic = tc.id := selectForTopic_topic_eq R4 tc rid bank q hq
  simp [ht]

theorem selectForTopic_countP_topic_other (R4 : Nat → Nat → Nat) (tc : TopicConfig)
    (rid : List String) (bank : List Question) (tid : TopicId) (hne : tc.id ≠ tid) :
    (selectForTopic R4 tc rid (bank.filter (fun q => q.topic == tc.id))).countP
      (fun q => q.topic == tid) = 0 := by
  refine List.countP_eq_zero.2 (fun q hq hcontra => ?_)
  have ht : q.topic = tc.id := selectForTopic_topic_eq R4 tc rid bank q hq
  rw [ht] at hcontra
  simp only [beq_iff_eq] at hcontra
  exact hne hcontra

/-- **C1.**  Given a bank containing each topic's quota (with, for the two
situational-sub-quota topics, at least 6 situational and quota − 6 knowledge
questions) and no recent question-id sets, `selectQuestions` returns exactly
40 questions distributed over the topics as 11, 6, 11, 8, 4. -/
theorem selectQuestions_quota_sum (R : Nat → Nat → Nat) (bank : List Question)
    (hpv_sit : 6 ≤ ((bank.filter (fun q => q.topic == TopicId.principes_valeurs)).filter
      (fun q => q.type == QuestionType.situational)).length)
    (hpv_kn : 5 ≤ ((bank.filter (fun q => q.topic == TopicId.principes_valeurs)).filter
      (fun q => q.type == QuestionType.knowledge)).length)
    (hinst : 6 ≤ (bank.filter (fun q => q.topic == TopicId.institutions)).length)
    (hdd_sit : 6 ≤ ((bank.filter (fun q => q.topic == TopicId.droits_devoirs)).filter
      (fun q => q.type == QuestionType.situational)).length)
    (hdd_kn : 5 ≤ ((bank.filter (fun q => q.topic == TopicId.droits_devoirs)).filter
      (fun q => q.type == QuestionType.knowledge)).length)
    (hhist : 8 ≤ (bank.filter (fun q => q.topic == TopicId.histoire_geographie_culture)).length)
    (hvf : 4 ≤ (bank.filter (fun q => q.topic == TopicId.vivre_france)).length) :
    (selectQuestions R bank []).length = 40 ∧
    ((selectQuestions R bank []).filter
      (fun q => q.topic == TopicId.principes_valeurs)).length = 11 ∧
    ((selectQuestions R bank []).filter
      (fun q => q.topic == TopicId.institutions)).length = 6 ∧
    ((selectQuestions R bank []).filter
      (fun q => q.topic == TopicId.droits_devoirs)).length = 11 ∧
    ((selectQuestions R bank []).filter
      (fun q => q.topic == TopicId.histoire_geographie_culture)).length = 8 ∧
    ((selectQuestions R bank []).filter
      (fun q => q.topic == TopicId.vivre_france)).length = 4 := by
  have hred : selectQuestions R bank [] = shuffle (R 25) (selectLoop R [] bank 0 TOPICS) := by
    simp [selectQuestions]
  have e0 : (selectForTopic (fun k => R (5 * (0) + k)) { id := TopicId.principes_valeurs, name := "Principes et valeurs de la République", nameShort := "Principes & Valeurs", targetCount := 11, color := "#002654" } [] (bank.filter (fun q => q.topic == TopicId.principes_valeurs))).length = 11 :=
    selectForTopic_length_sit _ { id := TopicId.principes_valeurs, name := "Principes et valeurs de la République", nameShort := "Principes & Valeurs", targetCount := 11, color := "#002654" } _ _ (by decide) (by decide) hpv_sit hpv_kn
  have e1 : (selectForTopic (fun k => R (5 * (0 + 1) + k)) { id := TopicId.institutions, name := "Système institutionnel et politique", nameShort := "Institutions", targetCount := 6, color := "#1E40AF" } [] (bank.filter (fun q => q.topic == TopicId.institutions))).length = 6 :=
    selectForTopic_length_nosit _ { id := TopicId.institutions, name := "Système institutionnel et politique", nameShort := "Institutions", targetCount := 6, color := "#1E40AF" } _ _ (by decide) hinst
  have e2 : (selectForTopic (fun k => R (5 * (0 + 1 + 1) + k)) { id := TopicId.droits_devoirs, name := "Droits et devoirs", nameShort := "Droits & Devoirs", targetCount := 11, color := "#059669" } [] (bank.filter (fun q => q.topic == TopicId.droits_devoirs))).length = 11 :=
    selectForTopic_length_sit _ { id := TopicId.droits_devoirs, name := "Droits et devoirs", nameShort := "Droits & Devoirs", targetCount := 11, color := "#059669" } _ _ (by decide) (by decide) hdd_sit hdd_kn
  have e3 : (selectForTopic (fun k => R (5 * (0 + 1 + 1 + 1) + k)) { id := TopicId.histoire_geographie_culture, name := "Histoire, géographie et culture", nameShort := "Histoire & Culture", targetCount := 8, color := "#9333EA" } [] (bank.filter (fun q => q.topic == TopicId.histoire_geographie_culture))).length = 8 :=
    selectForTopic_length_nosit _ { id := TopicId.histoire_geographie_culture, name := "Histoire, géographie et culture", nameShort := "Histoire & Culture", targetCount := 8, color := "#9333EA" } _ _ (by decide) hhist
  have e4 : (selectForTopic (fun k => R (5 * (0 + 1 + 1 + 1 + 1) + k)) { id := TopicId.vivre_france, name := "Vivre dans la société française", nameShort := "Vie Quotidienne", targetCount := 4, color := "#CE1126" } [] (bank.filter (fun q => q.topic == TopicId.vivre_france))).length = 4 :=
    selectForTopic_length_nosit _ { id := TopicId.vivre_france, name := "Vivre dans la société française", nameShort := "Vie Quotidienne", targetCount := 4, color := "#CE1126" } _ _ (by decide) hvf
  have s0 : (selectForTopic (fun k => R (5 * (0) + k)) { id := TopicId.principes_valeurs, name := "Principes et valeurs de la République", nameShort := "Principes & Valeurs", targetCount := 11, color := "#002654" } [] (bank.filter (fun q => q.topic == TopicId.principes_valeurs))).countP (fun q => q.topic == TopicId.principes_valeurs) = (selectForTopic (fun k => R (5 * (0) + k)) { id := TopicId.principes_valeurs, name := "Principes et valeurs de la République", nameShort := "Principes & Valeurs", targetCount := 11, color := "#002654" } [] (bank.filter (fun q => q.topic == TopicId.principes_valeurs))).length :=
    selectForTopic_countP_topic_self _ { id := TopicId.principes_valeurs, name := "Principes et valeurs de la République", nameShort := "Principes & Valeurs", targetCount := 11, color := "#002654" } _ bank
  have s1 : (selectForTopic (fun k => R (5 * (0 + 1) + k)) { id := TopicId.institutions, name := "Système institutionnel et politique", nameShort := "Institutions", targetCount := 6, color := "#1E40AF" } [] (bank.filter (fun q => q.topic == TopicId.institutions))).countP (fun q => q.topic == TopicId.institutions) = (selectForTopic (fun k => R (5 * (0 + 1) + k)) { id := TopicId.institutions, name := "Système institutionnel et politique", nameShort := "Institutions", targetCount := 6, color := "#1E40AF" } [] (bank.filter (fun q => q.topic == TopicId.institutions))).length :=
    selectForTopic_countP_topic_self _ { id := TopicId.institutions, name := "Système institutionnel et politique", nameShort := "Institutions", targetCount := 6, color := "#1E40AF" } _ bank
  have s2 : (selectForTopic (fun k => R (5 * (0 + 1 + 1) + k)) { id := TopicId.droits_devoirs, name := "Droits et devoirs", nameShort := "Droits & Devoirs", targetCount := 11, color := "#059669" } [] (bank.filter (fun q => q.topic == TopicId.droits_devoirs))).countP (fun q => q.topic == TopicId.droits_devoirs) = (selectForTopic (fun k => R (5 * (0 + 1 + 1) + k)) { id := TopicId.droits_devoirs, name := "Droits et devoirs", nameShort := "Droits & Devoirs", targetCount := 11, color := "#059669" } [] (bank.filter (fun q => q.topic == TopicId.droits_devoirs))).length :=
    selectForTopic_countP_topic_self _ { id := TopicId.droits_devoirs, name := "Droits et devoirs", nameShort := "Droits & Devoirs", targetCount := 11, color := "#059669" } _ bank
  have s3 : (selectForTopic (fun k => R (5 * (0 + 1 + 1 + 1) + k)) { id := TopicId.histoire_geographie_culture, name := "Histoire, géographie et culture", nameShort := "Histoire & Culture", targetCount := 8, color := "#9333EA" } [] (bank.filter (fun q => q.topic == TopicId.histoire_geographie_culture))).countP (fun q => q.topic == TopicId.histoire_geographie_culture) = (selectForTopic (fun k => R (5 * (0 + 1 + 1 + 1) + k)) { id := TopicId.histoire_geographie_culture, name := "Histoire, géographie et culture", nameShort := "Histoire & Culture", targetCount := 8, color := "#9333EA" } [] (bank.filter (fun q => q.topic == TopicId.histoire_geographie_culture))).length :=
    selectForTopic_countP_topic_self _ { id := TopicId.histoire_geographie_culture, name := "Histoire, géographie et culture", nameShort := "Histoire & Culture", targetCount := 8, color := "#9333EA" } _ bank
  have s4 : (selectForTopic (fun k => R (5 * (0 + 1 + 1 + 1 + 1) + k)) { id := TopicId.vivre_france, name := "Vivre dans la société française", nameShort := "Vie Quotidienne", targetCount := 4, color := "#CE1126" } [] (bank.filter (fun q => q.topic == TopicId.vivre_france))).countP (fun q => q.topic == TopicId.vivre_france) = (selectForTopic (fun k => R (5 * (0 + 1 + 1 + 1 + 1) + k)) { id := TopicId.vivre_france, name := "Vivre dans la société française", nameShort := "Vie Quotidienne", targetCount := 4, color := "#CE1126" } [] (bank.filter (fun q => q.topic == TopicId.vivre_france))).length :=
    selectForTopic_countP_topic_self _ { id := TopicId.vivre_france, name := "Vivre dans la société française", nameShort := "Vie Quotidienne", targetCount := 4, color := "#CE1126" } _ bank
  have z01 : (selectForTopic (fun k => R (5 * (0) + k)) { id := TopicId.principes_valeurs, name := "Principes et valeurs de la République", nameShort := "Principes & Valeurs", targetCount := 11, color := "#002654" } [] (bank.filter (fun q => q.topic == TopicId.principes_valeurs))).countP (fun q => q.topic == TopicId.institutions) = 0 :=
    selectForTopic_countP_topic_other _ { id := TopicId.principes_valeurs, name := "Principes et valeurs de la République", nameShort := "Principes & Valeurs", targetCount := 11, color := "#002654" } _ bank TopicId.institutions (by decide)
  have z02 : (selectForTopic (fun k => R (5 * (0) + k)) { id := TopicId.principes_valeurs, name := "Principes et valeurs de la République", nameShort := "Principes & Valeurs", targetCount := 11, color := "#002654" } [] (bank.filter (fun q => q.topic == TopicId.principes_valeurs))).countP (fun q => q.topic == TopicId.droits_devoirs) = 0 :=
    selectForTopic_countP_topic_other _ { id := TopicId.principes_valeurs, name := "Principes et valeurs de la République", nameShort := "Principes & Valeurs", targetCount := 11, color := "#002654" } _ bank TopicId.droits_devoirs (by decide)
  have z03 : (selectForTopic (fun k => R (5 * (0) + k)) { id := TopicId.principes_valeurs, name := "Principes et valeurs de la République", nameShort := "Principes & Valeurs", targetCount := 11, color := "#002654" } [] (bank.filter (fun q => q.topic == TopicId.principes_valeurs))).countP (fun q => q.topic == TopicId.histoire_geographie_culture) = 0 :=
    selectForTopic_countP_topic_other _ { id := TopicId.principes_valeurs, name := "Principes et valeurs de la République", nameShort := "Principes & Valeurs", targetCount := 11, color := "#002654" } _ bank TopicId.histoire_geographie_culture (by decide)
  have z04 : (selectForTopic (fun k => R (5 * (0) + k)) { id := TopicId.principes_valeurs, name := "Principes et valeurs de la République", nameShort := "Principes & Valeurs", targetCount := 11, color := "#002654" } [] (bank.filter (fun q => q.topic == TopicId.principes_valeurs))).countP (fun q => q.topic == TopicId.vivre_france) = 0 :=
    selectForTopic_countP_topic_other _ { id := TopicId.principes_valeurs, name := "Principes et valeurs de la République", nameShort := "Principes & Valeurs", targetCount := 11, color := "#002654" } _ bank TopicId.vivre_france (by decide)
  have z10 : (selectForTopic (fun k => R (5 * (0 + 1) + k)) { id := TopicId.institutions, name := "Système institutionnel et politique", nameShort := "Institutions", targetCount := 6, color := "#1E40AF" } [] (bank.filter (fun q => q.topic == TopicId.institutions))).countP (fun q => q.topic == TopicId.principes_valeurs) = 0 :=
    selectForTopic_countP_topic_other _ { id := TopicId.institutions, name := "Système institutionnel et politique", nameShort := "Institutions", targetCount := 6, color := "#1E40AF" } _ bank TopicId.principes_valeurs (by decide)
  have z12 : (selectForTopic (fun k => R (5 * (0 + 1) + k)) { id := TopicId.institutions, name := "Système institutionnel et politique", nameShort := "Institutions", targetCount := 6, color := "#1E40AF" } [] (bank.filter (fun q => q.topic == TopicId.institutions))).countP (fun q => q.topic == TopicId.droits_devoirs) = 0 :=
    selectForTopic_countP_topic_other _ { id := TopicId.institutions, name := "Système institutionnel et politique", nameShort := "Institutions", targetCount := 6, color := "#1E40AF" } _ bank TopicId.droits_devoirs (by decide)
  have z13 : (selectForTopic (fun k => R (5 * (0 + 1) + k)) { id := TopicId.institutions, name := "Système institutionnel et politique", nameShort := "Institutions", targetCount := 6, color := "#1E40AF" } [] (bank.filter (fun q => q.topic == TopicId.institutions))).countP (fun q => q.topic == TopicId.histoire_geographie_culture) = 0 :=
    selectForTopic_countP_topic_other _ { id := TopicId.institutions, name := "Système institutionnel et politique", nameShort := "Institutions", targetCount := 6, color := "#1E40AF" } _ bank TopicId.histoire_geographie_culture (by decide)
  have z14 : (selectForTopic (fun k => R (5 * (0 + 1) + k)) { id := TopicId.institutions, name := "Système institutionnel et politique", nameShort := "Institutions", targetCount := 6, color := "#1E40AF" } [] (bank.filter (fun q => q.topic == TopicId.institutions))).countP (fun q => q.topic == TopicId.vivre_france) = 0 :=
    selectForTopic_countP_topic_other _ { id := TopicId.institutions, name := "Système institutionnel et politique", nameShort := "Institutions", targetCount := 6, color := "#1E40AF" } _ bank TopicId.vivre_france (by decide)
  have z20 : (selectForTopic (fun k => R (5 * (0 + 1 + 1) + k)) { id := TopicId.droits_devoirs, name := "Droits et devoirs", nameShort := "Droits & Devoirs", targetCount := 11, color := "#059669" } [] (bank.filter (fun q => q.topic == TopicId.droits_devoirs))).countP (fun q => q.topic == TopicId.principes_valeurs) = 0 :=
    selectForTopic_countP_topic_other _ { id := TopicId.droits_devoirs, name := "Droits et devoirs", nameShort := "Droits & Devoirs", targetCount := 11, color := "#059669" } _ bank TopicId.principes_valeurs (by decide)
  have z21 : (selectForTopic (fun k => R (5 * (0 + 1 + 1) + k)) { id := TopicId.droits_devoirs, name := "Droits et devoirs", nameShort := "Droits & Devoirs", targetCount := 11, color := "#059669" } [] (bank.filter (fun q => q.topic == TopicId.droits_devoirs))).countP (fun q => q.topic == TopicId.institutions) = 0 :=
    selectForTopic_countP_topic_other _ { id := TopicId.droits_devoirs, name := "Droits et devoirs", nameShort := "Droits & Devoirs", targetCount := 11, color := "#059669" } _ bank TopicId.institutions (by decide)
  have z23 : (selectForTopic (fun k => R (5 * (0 + 1 + 1) + k)) { id := TopicId.droits_devoirs, name := "Droits et devoirs", nameShort := "Droits & Devoirs", targetCount := 11, color := "#059669" } [] (bank.filter (fun q => q.topic == TopicId.droits_devoirs))).countP (fun q => q.topic == TopicId.histoire_geographie_culture) = 0 :=
    selectForTopic_countP_topic_other _ { id := TopicId.droits_devoirs, name := "Droits et devoirs", nameShort := "Droits & Devoirs", targetCount := 11, color := "#059669" } _ bank TopicId.histoire_geographie_culture (by decide)
  have z24 : (selectForTopic (fun k => R (5 * (0 + 1 + 1) + k)) { id := TopicId.droits_devoirs, name := "Droits et devoirs", nameShort := "Droits & Devoirs", targetCount := 11, color := "#059669" } [] (bank.filter (fun q => q.topic == TopicId.droits_devoirs))).countP (fun q => q.topic == TopicId.vivre_france) = 0 :=
    selectForTopic_countP_topic_other _ { id := TopicId.droits_devoirs, name := "Droits et devoirs", nameShort := "Droits & Devoirs", targetCount := 11, color := "#059669" } _ bank TopicId.vivre_france (by decide)
  have z30 : (selectForTopic (fun k => R (5 * (0 + 1 + 1 + 1) + k)) { id := TopicId.histoire_geographie_culture, name := "Histoire, géographie et culture", nameShort := "Histoire & Culture", targetCount := 8, color := "#9333EA" } [] (bank.filter (fun q => q.topic == TopicId.histoire_geographie_culture))).countP (fun q => q.topic == TopicId.principes_valeurs) = 0 :=
    selectForTopic_countP_topic_other _ { id := TopicId.histoire_geographie_culture, name := "Histoire, géographie et culture", nameShort := "Histoire & Culture", targetCount := 8, color := "#9333EA" } _ bank TopicId.principes_valeurs (by decide)
  have z31 : (selectForTopic (fun k => R (5 * (0 + 1 + 1 + 1) + k)) { id := TopicId.histoire_geographie_culture, name := "Histoire, géographie et culture", nameShort := "Histoire & Culture", targetCount := 8, color := "#9333EA" } [] (bank.filter (fun q => q.topic == TopicId.histoire_geographie_culture))).countP (fun q => q.topic == TopicId.institutions) = 0 :=
    selectForTopic_countP_topic_other _ { id := TopicId.histoire_geographie_culture, name := "Histoire, géographie et culture", nameShort := "Histoire & Culture", targetCount := 8, color := "#9333EA" } _ bank TopicId.institutions (by decide)
  have z32 : (selectForTopic (fun k => R (5 * (0 + 1 + 1 + 1) + k)) { id := TopicId.histoire_geographie_culture, name := "Histoire, géographie et culture", nameShort := "Histoire & Culture", targetCount := 8, color := "#9333EA" } [] (bank.filter (fun q => q.topic == TopicId.histoire_geographie_culture))).countP (fun q => q.topic == TopicId.droits_devoirs) = 0 :=
    selectForTopic_countP_topic_other _ { id := TopicId.histoire_geographie_culture, name := "Histoire, géographie et culture", nameShort := "Histoire & Culture", targetCount := 8, color := "#9333EA" } _ bank TopicId.droits_devoirs (by decide)
  have z34 : (selectForTopic (fun k => R (5 * (0 + 1 + 1 + 1) + k)) { id := TopicId.histoire_geographie_culture, name := "Histoire, géographie et culture", nameShort := "Histoire & Culture", targetCount := 8, color := "#9333EA" } [] (bank.filter (fun q => q.topic == TopicId.histoire_geographie_culture))).countP (fun q => q.topic == TopicId.vivre_france) = 0 :=
    selectForTopic_countP_topic_other _ { id := TopicId.histoire_geographie_culture, name := "Histoire, géographie et culture", nameShort := "Histoire & Culture", targetCount := 8, color := "#9333EA" } _ bank TopicId.vivre_france (by decide)
  have z40 : (selectForTopic (fun k => R (5 * (0 + 1 + 1 + 1 + 1) + k)) { id := TopicId.vivre_france, name := "Vivre dans la société française", nameShort := "Vie Quotidienne", targetCount := 4, color := "#CE1126" } [] (bank.filter (fun q => q.topic == TopicId.vivre_france))).countP (fun q => q.topic == TopicId.principes_valeurs) = 0 :=
    selectForTopic_countP_topic_other _ { id := TopicId.vivre_france, name := "Vivre dans la société française", nameShort := "Vie Quotidienne", targetCount := 4, color := "#CE1126" } _ bank TopicId.principes_valeurs (by decide)
  have z41 : (selectForTopic (fun k => R (5 * (0 + 1 + 1 + 1 + 1) + k)) { id := TopicId.vivre_france, name := "Vivre dans la société française", nameShort := "Vie Quotidienne", targetCount := 4, color := "#CE1126" } [] (bank.filter (fun q => q.topic == TopicId.vivre_france))).countP (fun q => q.topic == TopicId.institutions) = 0 :=
    selectForTopic_countP_topic_other _ { id := TopicId.vivre_france, name := "Vivre dans la société française", nameShort := "Vie Quotidienne", targetCount := 4, color := "#CE1126" } _ bank TopicId.institutions (by decide)
  have z42 : (selectForTopic (fun k => R (5 * (0 + 1 + 1 + 1 + 1) + k)) { id := TopicId.vivre_france, name := "Vivre dans la société française", nameShort := "Vie Quotidienne", targetCount := 4, color := "#CE1126" } [] (bank.filter (fun q => q.topic == TopicId.vivre_france))).countP (fun q => q.topic == TopicId.droits_devoirs) = 0 :=
    selectForTopic_countP_topic_other _ { id := TopicId.vivre_france, name := "Vivre dans la société française", nameShort := "Vie Quotidienne", targetCount := 4, color := "#CE1126" } _ bank TopicId.droits_devoirs (by decide)
  have z43 : (selectForTopic (fun k => R (5 * (0 + 1 + 1 + 1 + 1) + k)) { id := TopicId.vivre_france, name := "Vivre dans la société française", nameShort := "Vie Quotidienne", targetCount := 4, color := "#CE1126" } [] (bank.filter (fun q => q.topic == TopicId.vivre_france))).countP (fun q => q.topic == TopicId.histoire_geographie_culture) = 0 :=
    selectForTopic_countP_topic_other _ { id := TopicId.vivre_france, name := "Vivre dans la société française", nameShort := "Vie Quotidienne", targetCount := 4, color := "#CE1126" } _ bank TopicId.histoire_geographie_culture (by decide)
  refine ⟨?_, ?_, ?_, ?_, ?_, ?_⟩
  · rw [hred, (shuffle_perm _ _).length_eq]
    simp only [TOPICS, selectLoop, List.length_append, List.length_nil]
    rw [e0, e1, e2, e3, e4]
  · rw [← List.countP_eq_length_filter, hred, shuffle_countP]
    simp only [TOPICS, selectLoop, List.countP_append, List.countP_nil]
    rw [s0, z10, z20, z30, z40, e0]
  · rw [← List.countP_eq_length_filter, hred, shuffle_countP]
    simp only [TOPICS, selectLoop, List.countP_append, List.countP_nil]
    rw [z01, s1, z21, z31, z41, e1]
  · rw [← List.countP_eq_length_filter, hred, shuffle_countP]
    simp only [TOPICS, selectLoop, List.countP_append, List.countP_nil]
    rw [z02, z12, s2, z32, z42, e2]
  · rw [← List.countP_eq_length_filter, hred, shuffle_countP]
    simp only [TOPICS, selectLoop, List.countP_append, List.countP_nil]
    rw [z03, z13, z23, s3, z43, e3]
  · rw [← List.countP_eq_length_filter, hred, shuffle_countP]
    simp only [TOPICS, selectLoop, List.countP_append, List.countP_nil]
    rw [z04, z14, z24, z34, s4, e4]

/-- Helper to build concrete questions for witness banks. -/
def mkQ (id : String) (ty : QuestionType) (t : TopicId) : Question :=
  { id := id
  , question := ""
  , type := ty
  , topic := t
  , choices := [ { label := "a", isCorrect := true }, { label := "b", isCorrect := false } ]
  , explanation := ""
  , difficulty := Difficulty.easy }

/-- A fixed draw of the randomness family (every draw picks index 0). -/
def R0 : Nat → Nat → Nat := fun _ _ => 0

/-- A bank meeting every quota exactly: 6+5 for the two situational topics,
6, 8 and 4 knowledge questions for the other three. -/
def sampleBank : List Question :=
  ((List.range 6).map (fun i => mkQ ("pv_s" ++ toString i) QuestionType.situational TopicId.principes_valeurs)) ++
  ((List.range 5).map (fun i => mkQ ("pv_k" ++ toString i) QuestionType.knowledge TopicId.principes_valeurs)) ++
  ((List.range 6).map (fun i => mkQ ("in_k" ++ toString i) QuestionType.knowledge TopicId.institutions)) ++
  ((List.range 6).map (fun i => mkQ ("dd_s" ++ toString i) QuestionType.situational TopicId.droits_devoirs)) ++
  ((List.range 5).map (fun i => mkQ ("dd_k" ++ toString i) QuestionType.knowledge TopicId.droits_devoirs)) ++
  ((List.range 8).map (fun i => mkQ ("hg_k" ++ toString i) QuestionType.knowledge TopicId.histoire_geographie_culture)) ++
  ((List.range 4).map (fun i => mkQ ("vf_k" ++ toString i) QuestionType.knowledge TopicId.vivre_france))

/-- Witness for C1 at a concrete bank and randomness draw. -/
theorem selectQuestions_quota_sum_witness :
    6 ≤ ((sampleBank.filter (fun q => q.topic == TopicId.principes_valeurs)).filter
      (fun q => q.type == QuestionType.situational)).length ∧
    (selectQuestions R0 sampleBank []).length = 40 :=
  ⟨by decide,
   (selectQuestions_quota_sum R0 sampleBank (by decide) (by decide) (by decide)
     (by decide) (by decide) (by decide) (by decide)).1⟩

/-- **C2 (amended).**  For each topic with situational sub-quota `k = 6`
(quota 11), `selectQuestions` selects `min k` situational questions out of
that topic's situational pool and fills the remaining `quota − (selected
situational)` slots from the knowledge pool (so knowledge backfills a
situational shortfall); the knowledge count never exceeds the quota minus
the number of situational questions actually selected, and under sufficient
supply the topic contributes exactly 6 situational and 5 knowledge
questions. -/
theorem selectQuestions_situational_subquota (R : Nat → Nat → Nat)
    (bank : List Question) (sets : List (List String)) :
    (((selectQuestions R bank sets).filter (fun q => q.topic == TopicId.principes_valeurs && q.type == QuestionType.situational)).length = min 6 ((bank.filter (fun q => q.topic == TopicId.principes_valeurs)).filter (fun q => q.type == QuestionType.situational)).length) ∧
    (((selectQuestions R bank sets).filter (fun q => q.topic == TopicId.principes_valeurs && q.type == QuestionType.knowledge)).length =
      min (11 - min 6 ((bank.filter (fun q => q.topic == TopicId.principes_valeurs)).filter (fun q => q.type == QuestionType.situational)).length) ((bank.filter (fun q => q.topic == TopicId.principes_valeurs)).filter (fun q => q.type == QuestionType.knowledge)).length) ∧
    (((selectQuestions R bank sets).filter (fun q => q.topic == TopicId.principes_valeurs && q.type == QuestionType.knowledge)).length ≤ 11 - ((selectQuestions R bank sets).filter (fun q => q.topic == TopicId.principes_valeurs && q.type == QuestionType.situational)).length) ∧
    (6 ≤ ((bank.filter (fun q => q.topic == TopicId.principes_valeurs)).filter (fun q => q.type == QuestionType.situational)).length → ((selectQuestions R bank sets).filter (fun q => q.topic == TopicId.principes_valeurs && q.type == QuestionType.situational)).length = 6) ∧
    (6 ≤ ((bank.filter (fun q => q.topic == TopicId.principes_valeurs)).filter (fun q => q.type == QuestionType.situational)).length → 5 ≤ ((bank.filter (fun q => q.topic == TopicId.principes_valeurs)).filter (fun q => q.type == QuestionType.knowledge)).length →
      ((selectQuestions R bank sets).filter (fun q => q.topic == TopicId.principes_valeurs && q.type == QuestionType.knowledge)).length = 5) ∧
    (((selectQuestions R bank sets).filter (fun q => q.topic == TopicId.droits_devoirs && q.type == QuestionType.situational)).length = min 6 ((bank.filter (fun q => q.topic == TopicId.droits_devoirs)).filter (fun q => q.type == QuestionType.situational)).length) ∧
    (((selectQuestions R bank sets).filter (fun q => q.topic == TopicId.droits_devoirs && q.type == QuestionType.knowledge)).length =
      min (11 - min 6 ((bank.filter (fun q => q.topic == TopicId.droits_devoirs)).filter (fun q => q.type == QuestionType.situational)).length) ((bank.filter (fun q => q.topic == TopicId.droits_devoirs)).filter (fun q => q.type == QuestionType.knowledge)).length) ∧
    (((selectQuestions R bank sets).filter (fun q => q.topic == TopicId.droits_devoirs && q.type == QuestionType.knowledge)).length ≤ 11 - ((selectQuestions R bank sets).filter (fun q => q.topic == TopicId.droits_devoirs && q.type == QuestionType.situational)).length) ∧
    (6 ≤ ((bank.filter (fun q => q.topic == TopicId.droits_devoirs)).filter (fun q => q.type == QuestionType.situational)).length → ((selectQuestions R bank sets).filter (fun q => q.topic == TopicId.droits_devoirs && q.type == QuestionType.situational)).length = 6) ∧
    (6 ≤ ((bank.filter (fun q => q.topic == TopicId.droits_devoirs)).filter (fun q => q.type == QuestionType.situational)).length → 5 ≤ ((bank.filter (fun q => q.topic == TopicId.droits_devoirs)).filter (fun q => q.type == QuestionType.knowledge)).length →
      ((selectQuestions R bank sets).filter (fun q => q.topic == TopicId.droits_devoirs && q.type == QuestionType.knowledge)).length = 5) := by
  have hred : selectQuestions R bank sets =
      shuffle (R 25) (selectLoop R ((sets.drop (sets.length - 3)).flatten) bank 0 TOPICS) := by
    simp only [selectQuestions]
  have c_pr_si_self : (selectForTopic (fun k => R (5 * (0) + k)) { id := TopicId.principes_valeurs, name := "Principes et valeurs de la République", nameShort := "Principes & Valeurs", targetCount := 11, color := "#002654" } ((sets.drop (sets.length - 3)).flatten) (bank.filter (fun q => q.topic == TopicId.principes_valeurs))).countP (fun q => q.topic == TopicId.principes_valeurs && q.type == QuestionType.situational) =
      (selectForTopic (fun k => R (5 * (0) + k)) { id := TopicId.principes_valeurs, name := "Principes et valeurs de la République", nameShort := "Principes & Valeurs", targetCount := 11, color := "#002654" } ((sets.drop (sets.length - 3)).flatten) (bank.filter (fun q => q.topic == TopicId.principes_valeurs))).countP (fun q => q.type == QuestionType.situational) :=
    selectForTopic_countP_and_self _ { id := TopicId.principes_valeurs, name := "Principes et valeurs de la République", nameShort := "Principes & Valeurs", targetCount := 11, color := "#002654" } _ bank _
  have c_pr_si_z1 : (selectForTopic (fun k => R (5 * (0 + 1) + k)) { id := TopicId.institutions, name := "Système institutionnel et politique", nameShort := "Institutions", targetCount := 6, color := "#1E40AF" } ((sets.drop (sets.length - 3)).flatten) (bank.filter (fun q => q.topic == TopicId.institutions))).countP (fun q => q.topic == TopicId.principes_valeurs && q.type == QuestionType.situational) = 0 :=
    selectForTopic_countP_and_other _ { id := TopicId.institutions, name := "Système institutionnel et politique", nameShort := "Institutions", targetCount := 6, color := "#1E40AF" } _ bank _ TopicId.principes_valeurs (by decide)
  have c_pr_si_z2 : (selectForTopic (fun k => R (5 * (0 + 1 + 1) + k)) { id := TopicId.droits_devoirs, name := "Droits et devoirs", nameShort := "Droits & Devoirs", targetCount := 11, color := "#059669" } ((sets.drop (sets.length - 3)).flatten) (bank.filter (fun q => q.topic == TopicId.droits_devoirs))).countP (fun q => q.topic == TopicId.principes_valeurs && q.type == QuestionType.situational) = 0 :=
    selectForTopic_countP_and_other _ { id := TopicId.droits_devoirs, name := "Droits et devoirs", nameShort := "Droits & Devoirs", targetCount := 11, color := "#059669" } _ bank _ TopicId.principes_valeurs (by decide)
  have c_pr_si_z3 : (selectForTopic (fun k => R (5 * (0 + 1 + 1 + 1) + k)) { id := TopicId.histoire_geographie_culture, name := "Histoire, géographie et culture", nameShort := "Histoire & Culture", targetCount := 8, color := "#9333EA" } ((sets.drop (sets.length - 3)).flatten) (bank.filter (fun q => q.topic == TopicId.histoire_geographie_culture))).countP (fun q => q.topic == TopicId.principes_valeurs && q.type == QuestionType.situational) = 0 :=
    selectForTopic_countP_and_other _ { id := TopicId.histoire_geographie_culture, name := "Histoire, géographie et culture", nameShort := "Histoire & Culture", targetCount := 8, color := "#9333EA" } _ bank _ TopicId.principes_valeurs (by decide)
  have c_pr_si_z4 : (selectForTopic (fun k => R (5 * (0 + 1 + 1 + 1 + 1) + k)) { id := TopicId.vivre_france, name := "Vivre dans la société française", nameShort := "Vie Quotidienne", targetCount := 4, color := "#CE1126" } ((sets.drop (sets.length - 3)).flatten) (bank.filter (fun q => q.topic == TopicId.vivre_france))).countP (fun q => q.topic == TopicId.principes_valeurs && q.type == QuestionType.situational) = 0 :=
    selectForTopic_countP_and_other _ { id := TopicId.vivre_france, name := "Vivre dans la société française", nameShort := "Vie Quotidienne", targetCount := 4, color := "#CE1126" } _ bank _ TopicId.principes_valeurs (by decide)
  have c_pr_kn_self : (selectForTopic (fun k => R (5 * (0) + k)) { id := TopicId.principes_valeurs, name := "Principes et valeurs de la République", nameShort := "Principes & Valeurs", targetCount := 11, color := "#002654" } ((sets.drop (sets.length - 3)).flatten) (bank.filter (fun q => q.topic == TopicId.principes_valeurs))).countP (fun q => q.topic == TopicId.principes_valeurs && q.type == QuestionType.knowledge) =
      (selectForTopic (fun k => R (5 * (0) + k)) { id := TopicId.principes_valeurs, name := "Principes et valeurs de la République", nameShort := "Principes & Valeurs", targetCount := 11, color := "#002654" } ((sets.drop (sets.length - 3)).flatten) (bank.filter (fun q => q.topic == TopicId.principes_valeurs))).countP (fun q => q.type == QuestionType.knowledge) :=
    selectForTopic_countP_and_self _ { id := TopicId.principes_valeurs, name := "Principes et valeurs de la République", nameShort := "Principes & Valeurs", targetCount := 11, color := "#002654" } _ bank _
  have c_pr_kn_z1 : (selectForTopic (fun k => R (5 * (0 + 1) + k)) { id := TopicId.institutions, name := "Système institutionnel et politique", nameShort := "Institutions", targetCount := 6, color := "#1E40AF" } ((sets.drop (sets.length - 3)).flatten) (bank.filter (fun q => q.topic == TopicId.institutions))).countP (fun q => q.topic == TopicId.principes_valeurs && q.type == QuestionType.knowledge) = 0 :=
    selectForTopic_countP_and_other _ { id := TopicId.institutions, name := "Système institutionnel et politique", nameShort := "Institutions", targetCount := 6, color := "#1E40AF" } _ bank _ TopicId.principes_valeurs (by decide)
  have c_pr_kn_z2 : (selectForTopic (fun k => R (5 * (0 + 1 + 1) + k)) { id := TopicId.droits_devoirs, name := "Droits et devoirs", nameShort := "Droits & Devoirs", targetCount := 11, color := "#059669" } ((sets.drop (sets.length - 3)).flatten) (bank.filter (fun q => q.topic == TopicId.droits_devoirs))).countP (fun q => q.topic == TopicId.principes_valeurs && q.type == QuestionType.knowledge) = 0 :=
    selectForTopic_countP_and_other _ { id := TopicId.droits_devoirs, name := "Droits et devoirs", nameShort := "Droits & Devoirs", targetCount := 11, color := "#059669" } _ bank _ TopicId.principes_valeurs (by decide)
  have c_pr_kn_z3 : (selectForTopic (fun k => R (5 * (0 + 1 + 1 + 1) + k)) { id := TopicId.histoire_geographie_culture, name := "Histoire, géographie et culture", nameShort := "Histoire & Culture", targetCount := 8, color := "#9333EA" } ((sets.drop (sets.length - 3)).flatten) (bank.filter (fun q => q.topic == TopicId.histoire_geographie_culture))).countP (fun q => q.topic == TopicId.principes_valeurs && q.type == QuestionType.knowledge) = 0 :=
    selectForTopic_countP_and_other _ { id := TopicId.histoire_geographie_culture, name := "Histoire, géographie et culture", nameShort := "Histoire & Culture", targetCount := 8, color := "#9333EA" } _ bank _ TopicId.principes_valeurs (by decide)
  have c_pr_kn_z4 : (selectForTopic (fun k => R (5 * (0 + 1 + 1 + 1 + 1) + k)) { id := TopicId.vivre_france, name := "Vivre dans la société française", nameShort := "Vie Quotidienne", targetCount := 4, color := "#CE1126" } ((sets.drop (sets.length - 3)).flatten) (bank.filter (fun q => q.topic == TopicId.vivre_france))).countP (fun q => q.topic == TopicId.principes_valeurs && q.type == QuestionType.knowledge) = 0 :=
    selectForTopic_countP_and_other _ { id := TopicId.vivre_france, name := "Vivre dans la société française", nameShort := "Vie Quotidienne", targetCount := 4, color := "#CE1126" } _ bank _ TopicId.principes_valeurs (by decide)
  have c_dr_si_self : (selectForTopic (fun k => R (5 * (0 + 1 + 1) + k)) { id := TopicId.droits_devoirs, name := "Droits et devoirs", nameShort := "Droits & Devoirs", targetCount := 11, color := "#059669" } ((sets.drop (sets.length - 3)).flatten) (bank.filter (fun q => q.topic == TopicId.droits_devoirs))).countP (fun q => q.topic == TopicId.droits_devoirs && q.type == QuestionType.situational) =
      (selectForTopic (fun k => R (5 * (0 + 1 + 1) + k)) { id := TopicId.droits_devoirs, name := "Droits et devoirs", nameShort := "Droits & Devoirs", targetCount := 11, color := "#059669" } ((sets.drop (sets.length - 3)).flatten) (bank.filter (fun q => q.topic == TopicId.droits_devoirs))).countP (fun q => q.type == QuestionType.situational) :=
    selectForTopic_countP_and_self _ { id := TopicId.droits_devoirs, name := "Droits et devoirs", nameShort := "Droits & Devoirs", targetCount := 11, color := "#059669" } _ bank _
  have c_dr_si_z0 : (selectForTopic (fun k => R (5 * (0) + k)) { id := TopicId.principes_valeurs, name := "Principes et valeurs de la République", nameShort := "Principes & Valeurs", targetCount := 11, color := "#002654" } ((sets.drop (sets.length - 3)).flatten) (bank.filter (fun q => q.topic == TopicId.principes_valeurs))).countP (fun q => q.topic == TopicId.droits_devoirs && q.type == QuestionType.situational) = 0 :=
    selectForTopic_countP_and_other _ { id := TopicId.principes_valeurs, name := "Principes et valeurs de la République", nameShort := "Principes & Valeurs", targetCount := 11, color := "#002654" } _ bank _ TopicId.droits_devoirs (by decide)
  have c_dr_si_z1 : (selectForTopic (fun k => R (5 * (0 + 1) + k)) { id := TopicId.institutions, name := "Système institutionnel et politique", nameShort := "Institutions", targetCount := 6, color := "#1E40AF" } ((sets.drop (sets.length - 3)).flatten) (bank.filter (fun q => q.topic == TopicId.institutions))).countP (fun q => q.topic == TopicId.droits_devoirs && q.type == QuestionType.situational) = 0 :=
    selectForTopic_countP_and_other _ { id := TopicId.institutions, name := "Système institutionnel et politique", nameShort := "Institutions", targetCount := 6, color := "#1E40AF" } _ bank _ TopicId.droits_devoirs (by decide)
  have c_dr_si_z3 : (selectForTopic (fun k => R (5 * (0 + 1 + 1 + 1) + k)) { id := TopicId.histoire_geographie_culture, name := "Histoire, géographie et culture", nameShort := "Histoire & Culture", targetCount := 8, color := "#9333EA" } ((sets.drop (sets.length - 3)).flatten) (bank.filter (fun q => q.topic == TopicId.histoire_geographie_culture))).countP (fun q => q.topic == TopicId.droits_devoirs && q.type == QuestionType.situational) = 0 :=
    selectForTopic_countP_and_other _ { id := TopicId.histoire_geographie_culture, name := "Histoire, géographie et culture", nameShort := "Histoire & Culture", targetCount := 8, color := "#9333EA" } _ bank _ TopicId.droits_devoirs (by decide)
  have c_dr_si_z4 : (selectForTopic (fun k => R (5 * (0 + 1 + 1 + 1 + 1) + k)) { id := TopicId.vivre_france, name := "Vivre dans la société française", nameShort := "Vie Quotidienne", targetCount := 4, color := "#CE1126" } ((sets.drop (sets.length - 3)).flatten) (bank.filter (fun q => q.topic == TopicId.vivre_france))).countP (fun q => q.topic == TopicId.droits_devoirs && q.type == QuestionType.situational) = 0 :=
    selectForTopic_countP_and_other _ { id := TopicId.vivre_france, name := "Vivre dans la société française", nameShort := "Vie Quotidienne", targetCount := 4, color := "#CE1126" } _ bank _ TopicId.droits_devoirs (by decide)
  have c_dr_kn_self : (selectForTopic (fun k => R (5 * (0 + 1 + 1) + k)) { id := TopicId.droits_devoirs, name := "Droits et devoirs", nameShort := "Droits & Devoirs", targetCount := 11, color := "#059669" } ((sets.drop (sets.length - 3)).flatten) (bank.filter (fun q => q.topic == TopicId.droits_devoirs))).countP (fun q => q.topic == TopicId.droits_devoirs && q.type == QuestionType.knowledge) =
      (selectForTopic (fun k => R (5 * (0 + 1 + 1) + k)) { id := TopicId.droits_devoirs, name := "Droits et devoirs", nameShort := "Droits & Devoirs", targetCount := 11, color := "#059669" } ((sets.drop (sets.length - 3)).flatten) (bank.filter (fun q => q.topic == TopicId.droits_devoirs))).countP (fun q => q.type == QuestionType.knowledge) :=
    selectForTopic_countP_and_self _ { id := TopicId.droits_devoirs, name := "Droits et devoirs", nameShort := "Droits & Devoirs", targetCount := 11, color := "#059669" } _ bank _
  have c_dr_kn_z0 : (selectForTopic (fun k => R (5 * (0) + k)) { id := TopicId.principes_valeurs, name := "Principes et valeurs de la République", nameShort := "Principes & Valeurs", targetCount := 11, color := "#002654" } ((sets.drop (sets.length - 3)).flatten) (bank.filter (fun q => q.topic == TopicId.principes_valeurs))).countP (fun q => q.topic == TopicId.droits_devoirs && q.type == QuestionType.knowledge) = 0 :=
    selectForTopic_countP_and_other _ { id := TopicId.principes_valeurs, name := "Principes et valeurs de la République", nameShort := "Principes & Valeurs", targetCount := 11, color := "#002654" } _ bank _ TopicId.droits_devoirs (by decide)
  have c_dr_kn_z1 : (selectForTopic (fun k => R (5 * (0 + 1) + k)) { id := TopicId.institutions, name := "Système institutionnel et politique", nameShort := "Institutions", targetCount := 6, color := "#1E40AF" } ((sets.drop (sets.length - 3)).flatten) (bank.filter (fun q => q.topic == TopicId.institutions))).countP (fun q => q.topic == TopicId.droits_devoirs && q.type == QuestionType.knowledge) = 0 :=
    selectForTopic_countP_and_other _ { id := TopicId.institutions, name := "Système institutionnel et politique", nameShort := "Institutions", targetCount := 6, color := "#1E40AF" } _ bank _ TopicId.droits_devoirs (by decide)
  have c_dr_kn_z3 : (selectForTopic (fun k => R (5 * (0 + 1 + 1 + 1) + k)) { id := TopicId.histoire_geographie_culture, name := "Histoire, géographie et culture", nameShort := "Histoire & Culture", targetCount := 8, color := "#9333EA" } ((sets.drop (sets.length - 3)).flatten) (bank.filter (fun q => q.topic == TopicId.histoire_geographie_culture))).countP (fun q => q.topic == TopicId.droits_devoirs && q.type == QuestionType.knowledge) = 0 :=
    selectForTopic_countP_and_other _ { id := TopicId.histoire_geographie_culture, name := "Histoire, géographie et culture", nameShort := "Histoire & Culture", targetCount := 8, color := "#9333EA" } _ bank _ TopicId.droits_devoirs (by decide)
  have c_dr_kn_z4 : (selectForTopic (fun k => R (5 * (0 + 1 + 1 + 1 + 1) + k)) { id := TopicId.vivre_france, name := "Vivre dans la société française", nameShort := "Vie Quotidienne", targetCount := 4, color := "#CE1126" } ((sets.drop (sets.length - 3)).flatten) (bank.filter (fun q => q.topic == TopicId.vivre_france))).countP (fun q => q.topic == TopicId.droits_devoirs && q.type == QuestionType.knowledge) = 0 :=
    selectForTopic_countP_and_other _ { id := TopicId.vivre_france, name := "Vivre dans la société française", nameShort := "Vie Quotidienne", targetCount := 4, color := "#CE1126" } _ bank _ TopicId.droits_devoirs (by decide)
  have cnt_pr : (selectForTopic (fun k => R (5 * (0) + k)) { id := TopicId.principes_valeurs, name := "Principes et valeurs de la République", nameShort := "Principes & Valeurs", targetCount := 11, color := "#002654" } ((sets.drop (sets.length - 3)).flatten) (bank.filter (fun q => q.topic == TopicId.principes_valeurs))).countP (fun q => q.type == QuestionType.situational) = min 6 ((bank.filter (fun q => q.topic == TopicId.principes_valeurs)).filter (fun q => q.type == QuestionType.situational)).length ∧
      (selectForTopic (fun k => R (5 * (0) + k)) { id := TopicId.principes_valeurs, name := "Principes et valeurs de la République", nameShort := "Principes & Valeurs", targetCount := 11, color := "#002654" } ((sets.drop (sets.length - 3)).flatten) (bank.filter (fun q => q.topic == TopicId.principes_valeurs))).countP (fun q => q.type == QuestionType.knowledge) = min (11 - min 6 ((bank.filter (fun q => q.topic == TopicId.principes_valeurs)).filter (fun q => q.type == QuestionType.situational)).length) ((bank.filter (fun q => q.topic == TopicId.principes_valeurs)).filter (fun q => q.type == QuestionType.knowledge)).length :=
    selectForTopic_countP_sit (fun k => R (5 * (0) + k)) { id := TopicId.principes_valeurs, name := "Principes et valeurs de la République", nameShort := "Principes & Valeurs", targetCount := 11, color := "#002654" }
      ((sets.drop (sets.length - 3)).flatten) (bank.filter (fun q => q.topic == TopicId.principes_valeurs)) (by decide)
  have cnt_dr : (selectForTopic (fun k => R (5 * (0 + 1 + 1) + k)) { id := TopicId.droits_devoirs, name := "Droits et devoirs", nameShort := "Droits & Devoirs", targetCount := 11, color := "#059669" } ((sets.drop (sets.length - 3)).flatten) (bank.filter (fun q => q.topic == TopicId.droits_devoirs))).countP (fun q => q.type == QuestionType.situational) = min 6 ((bank.filter (fun q => q.topic == TopicId.droits_devoirs)).filter (fun q => q.type == QuestionType.situational)).length ∧
      (selectForTopic (fun k => R (5 * (0 + 1 + 1) + k)) { id := TopicId.droits_devoirs, name := "Droits et devoirs", nameShort := "Droits & Devoirs", targetCount := 11, color := "#059669" } ((sets.drop (sets.length - 3)).flatten) (bank.filter (fun q => q.topic == TopicId.droits_devoirs))).countP (fun q => q.type == QuestionType.knowledge) = min (11 - min 6 ((bank.filter (fun q => q.topic == TopicId.droits_devoirs)).filter (fun q => q.type == QuestionType.situational)).length) ((bank.filter (fun q => q.topic == TopicId.droits_devoirs)).filter (fun q => q.type == QuestionType.knowledge)).length :=
    selectForTopic_countP_sit (fun k => R (5 * (0 + 1 + 1) + k)) { id := TopicId.droits_devoirs, name := "Droits et devoirs", nameShort := "Droits & Devoirs", targetCount := 11, color := "#059669" }
      ((sets.drop (sets.length - 3)).flatten) (bank.filter (fun q => q.topic == TopicId.droits_devoirs)) (by decide)
  have c_pr_si : ((selectQuestions R bank sets).filter (fun q => q.topic == TopicId.principes_valeurs && q.type == QuestionType.situational)).length =
      ((selectForTopic (fun k => R (5 * (0) + k)) { id := TopicId.principes_valeurs, name := "Principes et valeurs de la République", nameShort := "Principes & Valeurs", targetCount := 11, color := "#002654" } ((sets.drop (sets.length - 3)).flatten) (bank.filter (fun q => q.topic == TopicId.principes_valeurs))).countP (fun q => q.type == QuestionType.situational)) := by
    rw [← List.countP_eq_length_filter, hred, shuffle_countP]
    simp only [TOPICS, selectLoop, List.countP_append, List.countP_nil]
    rw [c_pr_si_self, c_pr_si_z1, c_pr_si_z2, c_pr_si_z3, c_pr_si_z4]
    omega
  have c_pr_kn : ((selectQuestions R bank sets).filter (fun q => q.topic == TopicId.principes_valeurs && q.type == QuestionType.knowledge)).length =
      ((selectForTopic (fun k => R (5 * (0) + k)) { id := TopicId.principes_valeurs, name := "Principes et valeurs de la République", nameShort := "Principes & Valeurs", targetCount := 11, color := "#002654" } ((sets.drop (sets.length - 3)).flatten) (bank.filter (fun q => q.topic == TopicId.principes_valeurs))).countP (fun q => q.type == QuestionType.knowledge)) := by
    rw [← List.countP_eq_length_filter, hred, shuffle_countP]
    simp only [TOPICS, selectLoop, List.countP_append, List.countP_nil]
    rw [c_pr_kn_self, c_pr_kn_z1, c_pr_kn_z2, c_pr_kn_z3, c_pr_kn_z4]
    omega
  have c_dr_si : ((selectQuestions R bank sets).filter (fun q => q.topic == TopicId.droits_devoirs && q.type == QuestionType.situational)).length =
      ((selectForTopic (fun k => R (5 * (0 + 1 + 1) + k)) { id := TopicId.droits_devoirs, name := "Droits et devoirs", nameShort := "Droits & Devoirs", targetCount := 11, color := "#059669" } ((sets.drop (sets.length - 3)).flatten) (bank.filter (fun q => q.topic == TopicId.droits_devoirs))).countP (fun q => q.type == QuestionType.situational)) := by
    rw [← List.countP_eq_length_filter, hred, shuffle_countP]
    simp only [TOPICS, selectLoop, List.countP_append, List.countP_nil]
    rw [c_dr_si_z0, c_dr_si_z1, c_dr_si_self, c_dr_si_z3, c_dr_si_z4]
    omega
  have c_dr_kn : ((selectQuestions R bank sets).filter (fun q => q.topic == TopicId.droits_devoirs && q.type == QuestionType.knowledge)).length =
      ((selectForTopic (fun k => R (5 * (0 + 1 + 1) + k)) { id := TopicId.droits_devoirs, name := "Droits et devoirs", nameShort := "Droits & Devoirs", targetCount := 11, color := "#059669" } ((sets.drop (sets.length - 3)).flatten) (bank.filter (fun q => q.topic == TopicId.droits_devoirs))).countP (fun q => q.type == QuestionType.knowledge)) := by
    rw [← List.countP_eq_length_filter, hred, shuffle_countP]
    simp only [TOPICS, selectLoop, List.countP_append, List.countP_nil]
    rw [c_dr_kn_z0, c_dr_kn_z1, c_dr_kn_self, c_dr_kn_z3, c_dr_kn_z4]
    omega
  refine ⟨?_, ?_, ?_, ?_, ?_, ?_, ?_, ?_, ?_, ?_⟩
  · rw [c_pr_si]
    exact cnt_pr.1
  · rw [c_pr_kn]
    exact cnt_pr.2
  · rw [c_pr_kn, c_pr_si, cnt_pr.1, cnt_pr.2]
    omega
  · intro h
    rw [c_pr_si, cnt_pr.1]
    omega
  · intro h1 h2
    rw [c_pr_kn, cnt_pr.2]
    omega
  · rw [c_dr_si]
    exact cnt_dr.1
  · rw [c_dr_kn]
    exact cnt_dr.2
  · rw [c_dr_kn, c_dr_si, cnt_dr.1, cnt_dr.2]
    omega
  · intro h
    rw [c_dr_si, cnt_dr.1]
    omega
  · intro h1 h2
    rw [c_dr_kn, cnt_dr.2]
    omega

/-- **C6 (amended).**  Freshness bias: for a topic without a situational
sub-quota whose pool holds exactly quota fresh and quota recently-used
questions, `selectQuestions` picks only fresh questions for that topic; for
the two situational-sub-quota topics the same holds provided the fresh pool
itself covers the per-type needs (at least 6 fresh situational and 5 fresh
knowledge questions). -/
theorem selectQuestions_freshness (R : Nat → Nat → Nat) (bank : List Question)
    (sets : List (List String)) :
    (((bank.filter (fun q => q.topic == TopicId.principes_valeurs)).filter (fun q => !(((sets.drop (sets.length - 3)).flatten).contains q.id))).length = 11 →
     ((bank.filter (fun q => q.topic == TopicId.principes_valeurs)).filter (fun q => ((sets.drop (sets.length - 3)).flatten).contains q.id)).length = 11 →
     6 ≤ (((bank.filter (fun q => q.topic == TopicId.principes_valeurs)).filter (fun q => q.type == QuestionType.situational)).filter (fun q => !(((sets.drop (sets.length - 3)).flatten).contains q.id))).length →
     5 ≤ (((bank.filter (fun q => q.topic == TopicId.principes_valeurs)).filter (fun q => q.type == QuestionType.knowledge)).filter (fun q => !(((sets.drop (sets.length - 3)).flatten).contains q.id))).length →
     ∀ q ∈ selectQuestions R bank sets, q.topic = TopicId.principes_valeurs →
      ((sets.drop (sets.length - 3)).flatten).contains q.id = false) ∧
    (((bank.filter (fun q => q.topic == TopicId.institutions)).filter (fun q => !(((sets.drop (sets.length - 3)).flatten).contains q.id))).length = 6 →
     ((bank.filter (fun q => q.topic == TopicId.institutions)).filter (fun q => ((sets.drop (sets.length - 3)).flatten).contains q.id)).length = 6 →
     ∀ q ∈ selectQuestions R bank sets, q.topic = TopicId.institutions →
      ((sets.drop (sets.length - 3)).flatten).contains q.id = false) ∧
    (((bank.filter (fun q => q.topic == TopicId.droits_devoirs)).filter (fun q => !(((sets.drop (sets.length - 3)).flatten).contains q.id))).length = 11 →
     ((bank.filter (fun q => q.topic == TopicId.droits_devoirs)).filter (fun q => ((sets.drop (sets.length - 3)).flatten).contains q.id)).length = 11 →
     6 ≤ (((bank.filter (fun q => q.topic == TopicId.droits_devoirs)).filter (fun q => q.type == QuestionType.situational)).filter (fun q => !(((sets.drop (sets.length - 3)).flatten).contains q.id))).length →
     5 ≤ (((bank.filter (fun q => q.topic == TopicId.droits_devoirs)).filter (fun q => q.type == QuestionType.knowledge)).filter (fun q => !(((sets.drop (sets.length - 3)).flatten).contains q.id))).length →
     ∀ q ∈ selectQuestions R bank sets, q.topic = TopicId.droits_devoirs →
      ((sets.drop (sets.length - 3)).flatten).contains q.id = false) ∧
    (((bank.filter (fun q => q.topic == TopicId.histoire_geographie_culture)).filter (fun q => !(((sets.drop (sets.length - 3)).flatten).contains q.id))).length = 8 →
     ((bank.filter (fun q => q.topic == TopicId.histoire_geographie_culture)).filter (fun q => ((sets.drop (sets.length - 3)).flatten).contains q.id)).length = 8 →
     ∀ q ∈ selectQuestions R bank sets, q.topic = TopicId.histoire_geographie_culture →
      ((sets.drop (sets.length - 3)).flatten).contains q.id = false) ∧
    (((bank.filter (fun q => q.topic == TopicId.vivre_france)).filter (fun q => !(((sets.drop (sets.length - 3)).flatten).contains q.id))).length = 4 →
     ((bank.filter (fun q => q.topic == TopicId.vivre_france)).filter (fun q => ((sets.drop (sets.length - 3)).flatten).contains q.id)).length = 4 →
     ∀ q ∈ selectQuestions R bank sets, q.topic = TopicId.vivre_france →
      ((sets.drop (sets.length - 3)).flatten).contains q.id = false) := by
  have hred : selectQuestions R bank sets =
      shuffle (R 25) (selectLoop R ((sets.drop (sets.length - 3)).flatten) bank 0 TOPICS) := by
    simp only [selectQuestions]
  refine ⟨?_, ?_, ?_, ?_, ?_⟩
  · intro hf hu h6 h5 q hq ht
    rw [hred, mem_shuffle] at hq
    simp only [TOPICS, selectLoop, List.mem_append, List.not_mem_nil, or_false] at hq
    rcases hq with h | h | h | h | h
    · exact selectForTopic_fresh_sit _ { id := TopicId.principes_valeurs, name := "Principes et valeurs de la République", nameShort := "Principes & Valeurs", targetCount := 11, color := "#002654" } _ _ (by decide) h6 h5 q h
    · exact absurd (ht.symm.trans (selectForTopic_topic_eq _ { id := TopicId.institutions, name := "Système institutionnel et politique", nameShort := "Institutions", targetCount := 6, color := "#1E40AF" } _ bank q h)) (by decide)
    · exact absurd (ht.symm.trans (selectForTopic_topic_eq _ { id := TopicId.droits_devoirs, name := "Droits et devoirs", nameShort := "Droits & Devoirs", targetCount := 11, color := "#059669" } _ bank q h)) (by decide)
    · exact absurd (ht.symm.trans (selectForTopic_topic_eq _ { id := TopicId.histoire_geographie_culture, name := "Histoire, géographie et culture", nameShort := "Histoire & Culture", targetCount := 8, color := "#9333EA" } _ bank q h)) (by decide)
    · exact absurd (ht.symm.trans (selectForTopic_topic_eq _ { id := TopicId.vivre_france, name := "Vivre dans la société française", nameShort := "Vie Quotidienne", targetCount := 4, color := "#CE1126" } _ bank q h)) (by decide)
  · intro hf hu q hq ht
    rw [hred, mem_shuffle] at hq
    simp only [TOPICS, selectLoop, List.mem_append, List.not_mem_nil, or_false] at hq
    rcases hq with h | h | h | h | h
    · exact absurd (ht.symm.trans (selectForTopic_topic_eq _ { id := TopicId.principes_valeurs, name := "Principes et valeurs de la République", nameShort := "Principes & Valeurs", targetCount := 11, color := "#002654" } _ bank q h)) (by decide)
    · exact selectForTopic_fresh_nosit _ { id := TopicId.institutions, name := "Système institutionnel et politique", nameShort := "Institutions", targetCount := 6, color := "#1E40AF" } _ _ (by decide) (by rw [hf]) q h
    · exact absurd (ht.symm.trans (selectForTopic_topic_eq _ { id := TopicId.droits_devoirs, name := "Droits et devoirs", nameShort := "Droits & Devoirs", targetCount := 11, color := "#059669" } _ bank q h)) (by decide)
    · exact absurd (ht.symm.trans (selectForTopic_topic_eq _ { id := TopicId.histoire_geographie_culture, name := "Histoire, géographie et culture", nameShort := "Histoire & Culture", targetCount := 8, color := "#9333EA" } _ bank q h)) (by decide)
    · exact absurd (ht.symm.trans (selectForTopic_topic_eq _ { id := TopicId.vivre_france, name := "Vivre dans la société française", nameShort := "Vie Quotidienne", targetCount := 4, color := "#CE1126" } _ bank q h)) (by decide)
  · intro hf hu h6 h5 q hq ht
    rw [hred, mem_shuffle] at hq
    simp only [TOPICS, selectLoop, List.mem_append, List.not_mem_nil, or_false] at hq
    rcases hq with h | h | h | h | h
    · exact absurd (ht.symm.trans (selectForTopic_topic_eq _ { id := TopicId.principes_valeurs, name := "Principes et valeurs de la République", nameShort := "Principes & Valeurs", targetCount := 11, color := "#002654" } _ bank q h)) (by decide)
    · exact absurd (ht.symm.trans (selectForTopic_topic_eq _ { id := TopicId.institutions, name := "Système institutionnel et politique", nameShort := "Institutions", targetCount := 6, color := "#1E40AF" } _ bank q h)) (by decide)
    · exact selectForTopic_fresh_sit _ { id := TopicId.droits_devoirs, name := "Droits et devoirs", nameShort := "Droits & Devoirs", targetCount := 11, color := "#059669" } _ _ (by decide) h6 h5 q h
    · exact absurd (ht.symm.trans (selectForTopic_topic_eq _ { id := TopicId.histoire_geographie_culture, name := "Histoire, géographie et culture", nameShort := "Histoire & Culture", targetCount := 8, color := "#9333EA" } _ bank q h)) (by decide)
    · exact absurd (ht.symm.trans (selectForTopic_topic_eq _ { id := TopicId.vivre_france, name := "Vivre dans la société française", nameShort := "Vie Quotidienne", targetCount := 4, color := "#CE1126" } _ bank q h)) (by decide)
  · intro hf hu q hq ht
    rw [hred, mem_shuffle] at hq
    simp only [TOPICS, selectLoop, List.mem_append, List.not_mem_nil, or_false] at hq
    rcases hq with h | h | h | h | h
    · exact absurd (ht.symm.trans (selectForTopic_topic_eq _ { id := TopicId.principes_valeurs, name := "Principes et valeurs de la République", nameShort := "Principes & Valeurs", targetCount := 11, color := "#002654" } _ bank q h)) (by decide)
    · exact absurd (ht.symm.trans (selectForTopic_topic_eq _ { id := TopicId.institutions, name := "Système institutionnel et politique", nameShort := "Institutions", targetCount := 6, color := "#1E40AF" } _ bank q h)) (by decide)
    · exact absurd (ht.symm.trans (selectForTopic_topic_eq _ { id := TopicId.droits_devoirs, name := "Droits et devoirs", nameShort := "Droits & Devoirs", targetCount := 11, color := "#059669" } _ bank q h)) (by decide)
    · exact selectForTopic_fresh_nosit _ { id := TopicId.histoire_geographie_culture, name := "Histoire, géographie et culture", nameShort := "Histoire & Culture", targetCount := 8, color := "#9333EA" } _ _ (by decide) (by rw [hf]) q h
    · exact absurd (ht.symm.trans (selectForTopic_topic_eq _ { id := TopicId.vivre_france, name := "Vivre dans la société française", nameShort := "Vie Quotidienne", targetCount := 4, color := "#CE1126" } _ bank q h)) (by decide)
  · intro hf hu q hq ht
    rw [hred, mem_shuffle] at hq
    simp only [TOPICS, selectLoop, List.mem_append, List.not_mem_nil, or_false] at hq
    rcases hq with h | h | h | h | h
    · exact absurd (ht.symm.trans (selectForTopic_topic_eq _ { id := TopicId.principes_valeurs, name := "Principes et valeurs de la République", nameShort := "Principes & Valeurs", targetCount := 11, color := "#002654" } _ bank q h)) (by decide)
    · exact absurd (ht.symm.trans (selectForTopic_topic_eq _ { id := TopicId.institutions, name := "Système institutionnel et politique", nameShort := "Institutions", targetCount := 6, color := "#1E40AF" } _ bank q h)) (by decide)
    · exact absurd (ht.symm.trans (selectForTopic_topic_eq _ { id := TopicId.droits_devoirs, name := "Droits et devoirs", nameShort := "Droits & Devoirs", targetCount := 11, color := "#059669" } _ bank q h)) (by decide)
    · exact absurd (ht.symm.trans (selectForTopic_topic_eq _ { id := TopicId.histoire_geographie_culture, name := "Histoire, géographie et culture", nameShort := "Histoire & Culture", targetCount := 8, color := "#9333EA" } _ bank q h)) (by decide)
    · exact selectForTopic_fresh_nosit _ { id := TopicId.vivre_france, name := "Vivre dans la société française", nameShort := "Vie Quotidienne", targetCount := 4, color := "#CE1126" } _ _ (by decide) (by rw [hf]) q h

/-- A bank whose `principes_valeurs` pool has no situational questions at
all: eleven knowledge questions only. -/
def bankOnlyKnowledge : List Question :=
  (List.range 11).map (fun i => mkQ ("pvk" ++ toString i) QuestionType.knowledge TopicId.principes_valeurs)

/-- Counterexample to C2 as stated: with no situational questions available,
the knowledge slots are backfilled to the full quota 11, exceeding
quota − k = 5 (the source computes `targetCount - selectedSituational.length`,
not `targetCount - situationalRequired`). -/
theorem selectQuestions_situational_subquota_cex :
    ((selectQuestions R0 bankOnlyKnowledge []).filter
      (fun q => q.topic == TopicId.principes_valeurs &&
        q.type == QuestionType.knowledge)).length = 11 ∧
    ¬ (((selectQuestions R0 bankOnlyKnowledge []).filter
      (fun q => q.topic == TopicId.principes_valeurs &&
        q.type == QuestionType.knowledge)).length ≤ 11 - 6) := by
  decide

/-- Witness for C2 (amended) at a concrete bank with ample supply. -/
theorem selectQuestions_situational_subquota_witness :
    6 ≤ ((sampleBank.filter (fun q => q.topic == TopicId.principes_valeurs)).filter
      (fun q => q.type == QuestionType.situational)).length ∧
    ((selectQuestions R0 sampleBank []).filter
      (fun q => q.topic == TopicId.principes_valeurs &&
        q.type == QuestionType.situational)).length = 6 :=
  ⟨by decide, (selectQuestions_situational_subquota R0 sampleBank []).2.2.2.1 (by decide)⟩

/-- The recently used question ids of `bankMixed`. -/
def usedIds : List String := (List.range 11).map (fun i => "pvu" ++ toString i)

/-- A bank whose `principes_valeurs` pool has exactly 11 fresh questions (all
knowledge) and 11 recently used ones (all situational). -/
def bankMixed : List Question :=
  ((List.range 11).map (fun i => mkQ ("pvf" ++ toString i) QuestionType.knowledge TopicId.principes_valeurs)) ++
  (usedIds.map (fun s => mkQ s QuestionType.situational TopicId.principes_valeurs))

/-- Counterexample to C6 as stated: `principes_valeurs` has exactly quota
(11) fresh and quota used questions, yet the selection contains recently
used ones, because the situational sub-quota is filled from the situational
slice where only used questions exist. -/
theorem selectQuestions_freshness_cex :
    ((bankMixed.filter (fun q => q.topic == TopicId.principes_valeurs)).filter
      (fun q => !((([usedIds].drop ([usedIds].length - 3)).flatten).contains q.id))).length = 11 ∧
    ((bankMixed.filter (fun q => q.topic == TopicId.principes_valeurs)).filter
      (fun q => (([usedIds].drop ([usedIds].length - 3)).flatten).contains q.id)).length = 11 ∧
    ¬ (∀ q ∈ selectQuestions R0 bankMixed [usedIds], q.topic = TopicId.principes_valeurs →
        (([usedIds].drop ([usedIds].length - 3)).flatten).contains q.id = false) := by
  decide

/-- The recently used institutions ids of `bankInst`. -/
def usedInstIds : List String := (List.range 6).map (fun i => "inu" ++ toString i)

/-- A bank whose `institutions` pool has exactly quota (6) fresh and quota
used questions. -/
def bankInst : List Question :=
  ((List.range 6).map (fun i => mkQ ("inf" ++ toString i) QuestionType.knowledge TopicId.institutions)) ++
  (usedInstIds.map (fun s => mkQ s QuestionType.knowledge TopicId.institutions))

/-- Witness for C6 (amended) at a concrete bank and history. -/
theorem selectQuestions_freshness_witness :
    (((bankInst.filter (fun q => q.topic == TopicId.institutions)).filter
      (fun q => !((([usedInstIds].drop ([usedInstIds].length - 3)).flatten).contains q.id))).length = 6) ∧
    (∀ q ∈ selectQuestions R0 bankInst [usedInstIds], q.topic = TopicId.institutions →
      (([usedInstIds].drop ([usedInstIds].length - 3)).flatten).contains q.id = false) :=
  ⟨by decide, (selectQuestions_freshness R0 bankInst [usedInstIds]).2.1 (by decide) (by decide)⟩

/-- **C7.**  The original-to-shuffled index map round-trips:
`shuffledChoices[originalToShuffledMap[i]] = choices[i]` for every in-range
`i`, and the shuffled choices are a permutation of the original choices. -/
theorem shuffleChoices_round_trip (rand : Nat → Nat) (question : Question) (i : Nat)
    (h : i < question.choices.length) :
    (shuffleChoices rand question).shuffledChoices[
        (shuffleChoices rand question).originalToShuffledMap.getD i 0]? =
      question.choices[i]? ∧
    (shuffleChoices rand question).shuffledChoices.Perm question.choices := by
  have hperm : (shuffle rand (List.range question.choices.length)).Perm
      (List.range question.choices.length) := shuffle_perm _ _
  constructor
  · simp only [shuffleChoices]
    have hmem : i ∈ shuffle rand (List.range question.choices.length) :=
      hperm.mem_iff.2 (List.mem_range.2 h)
    have hidx : (shuffle rand (List.range question.choices.length)).indexOf i <
        (shuffle rand (List.range question.choices.length)).length :=
      List.indexOf_lt_length.2 hmem
    have hmap : (List.map
        (fun originalIndex => (shuffle rand (List.range question.choices.length)).indexOf originalIndex)
        (List.range question.choices.length)).getD i 0 =
        (shuffle rand (List.range question.choices.length)).indexOf i := by
      rw [List.getD_eq_getElem?_getD, List.getElem?_map, List.getElem?_range h]
      rfl
    rw [hmap, List.getElem?_map]
    have hget : (shuffle rand (List.range question.choices.length))[
        (shuffle rand (List.range question.choices.length)).indexOf i]? = some i := by
      rw [List.getElem?_eq_getElem hidx]
      exact congrArg some (List.getElem_indexOf hidx)
    rw [hget]
    rw [Option.map_some']
    rw [List.getD_eq_getElem?_getD, List.getElem?_eq_getElem h]
    rfl
  · simp only [shuffleChoices]
    have := hperm.map (fun j => question.choices.getD j defaultChoice)
    rw [map_getD_range question.choices defaultChoice] at this
    exact this

/-- Witness for C7 at a concrete question, index and randomness draw. -/
theorem shuffleChoices_round_trip_witness :
    0 < (mkQ "w" QuestionType.knowledge TopicId.institutions).choices.length ∧
    (shuffleChoices (fun _ => 0) (mkQ "w" QuestionType.knowledge TopicId.institutions)).shuffledChoices[
        (shuffleChoices (fun _ => 0)
          (mkQ "w" QuestionType.knowledge TopicId.institutions)).originalToShuffledMap.getD 0 0]? =
      (mkQ "w" QuestionType.knowledge TopicId.institutions).choices[0]? :=
  ⟨by decide,
   (shuffleChoices_round_trip (fun _ => 0)
     (mkQ "w" QuestionType.knowledge TopicId.institutions) 0 (by decide)).1⟩

/-! ## IEEE-754 binary64 model for the scorer arithmetic

`calculatePercentage` computes `Math.round((value / total) * 100)` on
JavaScript numbers, i.e. IEEE-754 binary64 values.  The model below works
with exact dyadic rationals `mantissa * 2 ^ exponent` and rounds each
intermediate result to the nearest value with a 53-bit significand
(round-to-nearest, ties-to-even), exactly as the hardware does on this
range (no overflow, no subnormals: every quantity here lies between
2^-60 and 2^60).  Every function is structurally recursive so that the
kernel can evaluate the model inside `decide`. -/

/-- Floor of the base-2 logarithm, with explicit fuel so that the kernel
can unfold it (64 bits of fuel cover every quantity in the scorer). -/
def log2fuel : Nat → Nat → Nat
  | 0, _ => 0
  | fuel + 1, n => if n ≤ 1 then 0 else log2fuel fuel (n / 2) + 1

/-- `natLog2 n` is the `l` with `2 ^ l ≤ n < 2 ^ (l + 1)` for `0 < n < 2 ^ 64`. -/
def natLog2 (n : Nat) : Nat := log2fuel 64 n

/-- Round the fraction `num / den` (`den > 0`) to the nearest integer,
ties to even — the IEEE-754 default rounding applied to a value scaled
into the significand range. -/
def roundHalfEvenFrac (num den : Int) : Int :=
  let f := Int.fdiv num den
  let r := num - f * den
  if 2 * r < den then f
  else if den < 2 * r then f + 1
  else if f % 2 = 0 then f else f + 1

/-- Decide `2 ^ m ≤ a / b` for natural `a, b` (`b > 0`) and integer `m`. -/
def pow2le (m : Int) (a b : Nat) : Bool :=
  match m with
  | Int.ofNat n => decide (b * 2 ^ n ≤ a)
  | Int.negSucc n => decide (b ≤ a * 2 ^ (n + 1))

/-- The binary exponent of the positive fraction `a / b`: the `e` with
`2 ^ e ≤ a / b < 2 ^ (e + 1)`. -/
def fracExp2 (a b : Nat) : Int :=
  let c : Int := (natLog2 a : Int) - (natLog2 b : Int)
  if pow2le c a b then c else c - 1

/-- A binary64 value, as an exact dyadic rational `mantissa * 2 ^ exponent`. -/
structure Binary64 where
  mantissa : Int
  exponent : Int
deriving DecidableEq, Repr

/-- Correctly rounded binary64 division `a / b` of two exactly
representable naturals (`a, b > 0`): scale `a / b` into `[2^52, 2^53)`,
round to the nearest integer significand (ties to even), and attach the
exponent. -/
def divToDouble (a b : Nat) : Binary64 :=
  let e := fracExp2 a b
  let m := match 52 - e with
    | Int.ofNat n => roundHalfEvenFrac ((a * 2 ^ n : Nat) : Int) (b : Int)
    | Int.negSucc n => roundHalfEvenFrac (a : Int) ((b * 2 ^ (n + 1) : Nat) : Int)
  { mantissa := m, exponent := e - 52 }

/-- JavaScript `value / total` for naturals (binary64 division). -/
def jsDivNat (value total : Nat) : Binary64 :=
  if value = 0 then { mantissa := 0, exponent := 0 }
  else divToDouble value total

/-- Round the exact dyadic rational `M * 2 ^ E` (`M ≥ 0`) to the nearest
binary64 value — the rounding step of every arithmetic operation. -/
def dyadicToDouble (M : Int) (E : Int) : Binary64 :=
  if M = 0 then { mantissa := 0, exponent := 0 }
  else
    let e := (natLog2 M.toNat : Int) + E
    let m := match E + (52 - e) with
      | Int.ofNat n => M * 2 ^ n
      | Int.negSucc n => roundHalfEvenFrac M (2 ^ (n + 1))
    { mantissa := m, exponent := e - 52 }

/-- JavaScript `x * 100` on a binary64 value: the exact product `M * 100`
re-rounded to 53 significant bits. -/
def jsMul100 (x : Binary64) : Binary64 := dyadicToDouble (x.mantissa * 100) x.exponent

/-- `Math.round` on a binary64 value: the integer nearest to the exact
value `M * 2 ^ E`, ties toward `+∞`, i.e. `⌊x + 1/2⌋`. -/
def jsMathRound (x : Binary64) : Int :=
  match x.exponent with
  | Int.ofNat n => x.mantissa * 2 ^ n
  | Int.negSucc n => Int.fdiv (x.mantissa + 2 ^ n) (2 ^ (n + 1))

/-- `calculatePercentage(value, total)` (src/utils/questions.ts): 0 when
`total` is 0, otherwise `Math.round((value / total) * 100)` computed in
binary64 arithmetic. -/
def calculatePercentage (value total : Nat) : Nat :=
  if total = 0 then 0
  else (jsMathRound (jsMul100 (jsDivNat value total))).toNat

/-! ## Session state machine (src/stores/quizStore.ts) and history store
(src/utils/localStorage.ts)

The persisted key-value store is modelled, as the specification prescribes,
by the `QuizHistory` value it holds; `getQuizHistory`/`saveQuizHistory`
become reads and writes of that value, threaded through `AppState`.
External impurities (`new Date().toISOString()`, `generateQuizId()`) are
passed in as parameters. -/

structure QuizAnswer where
  questionId : String
  selectedChoiceIndex : Option Int
  isCorrect : Bool
  timeTaken : Nat
deriving DecidableEq, Repr

structure QuizSession where
  id : String
  startedAt : String
  completedAt : Option String
  questions : List ShuffledQuestion
  answers : List QuizAnswer
  currentQuestionIndex : Int
  timeRemaining : Nat
  isCompleted : Bool
  isPaused : Bool
deriving DecidableEq, Repr

structure TopicPerformance where
  topicId : TopicId
  correct : Nat
  total : Nat
  percentage : Nat
deriving DecidableEq, Repr

structure QuizResult where
  id : String
  date : String
  score : Nat
  totalQuestions : Nat
  percentage : Nat
  passed : Bool
  timeTaken : Nat
  topicPerformance : List TopicPerformance
  questions : Option (List Question) := none
  answers : Option (List QuizAnswer) := none
deriving DecidableEq, Repr

structure QuizHistory where
  results : List QuizResult
  usedQuestionSets : List (List String)
  lastQuizDate : Option String
deriving DecidableEq, Repr

structure AppState where
  currentQuiz : Option QuizSession
  quizHistory : QuizHistory
  isLoading : Bool
deriving DecidableEq, Repr

/-- `addQuizResult(result)`: append the result and stamp `lastQuizDate`. -/
def addQuizResult (result : QuizResult) (history : QuizHistory) : QuizHistory :=
  { history with
    results := history.results ++ [result]
  , lastQuizDate := some result.date }

/-- `addUsedQuestionSet(questionIds)`: append the id set and keep the last
10 (`[...sets, ids].slice(-10)`). -/
def addUsedQuestionSet (questionIds : List String) (history : QuizHistory) : QuizHistory :=
  { history with
    usedQuestionSets :=
      (history.usedQuestionSets ++ [questionIds]).drop
        ((history.usedQuestionSets.length + 1) - 10) }

/-- JavaScript array indexing with a possibly negative index:
`array[i]` is `undefined` when `i` is negative or past the end. -/
def listGetInt (l : List α) (i : Int) : Option α :=
  match i with
  | Int.ofNat n => l[n]?
  | Int.negSucc _ => none

/-- `quizActions.answerQuestion(questionIndex, choiceIndex)`: no-op without
a session, on a completed session, or when `questions[questionIndex]` is
`undefined`; otherwise records `selectedChoiceIndex := choiceIndex` and
`isCorrect := shuffledChoices[choiceIndex]?.isCorrect ?? false` in
`answers[questionIndex]` (the answers array always has one entry per
question, so the answer lookup never misses). -/
def answerQuestion (questionIndex choiceIndex : Int) (st : AppState) : AppState :=
  match st.currentQuiz with
  | none => st
  | some quiz =>
    if quiz.isCompleted then st
    else
      match listGetInt quiz.questions questionIndex with
      | none => st
      | some question =>
        let isCorrect :=
          ((listGetInt question.shuffledChoices choiceIndex).map
            (fun c => c.isCorrect)).getD false
        let updatedAnswers :=
          match listGetInt quiz.answers questionIndex with
          | some answer => quiz.answers.set questionIndex.toNat
              { answer with selectedChoiceIndex := some choiceIndex, isCorrect := isCorrect }
          | none => quiz.answers
        { st with currentQuiz := some { quiz with answers := updatedAnswers } }

/-- `quizActions.goToQuestion(index)`:
`clampedIndex = Math.max(0, Math.min(index, questions.length - 1))`. -/
def goToQuestion (index : Int) (st : AppState) : AppState :=
  match st.currentQuiz with
  | none => st
  | some quiz =>
    let clampedIndex := max 0 (min index ((quiz.questions.length : Int) - 1))
    { st with currentQuiz := some { quiz with currentQuestionIndex := clampedIndex } }

/-- `quizActions.nextQuestion()`:
`nextIndex = Math.min(currentQuestionIndex + 1, questions.length - 1)`. -/
def nextQuestion (st : AppState) : AppState :=
  match st.currentQuiz with
  | none => st
  | some quiz =>
    let nextIndex := min (quiz.currentQuestionIndex + 1) ((quiz.questions.length : Int) - 1)
    { st with currentQuiz := some { quiz with currentQuestionIndex := nextIndex } }

/-- `quizActions.prevQuestion()`:
`prevIndex = Math.max(currentQuestionIndex - 1, 0)`. -/
def prevQuestion (st : AppState) : AppState :=
  match st.currentQuiz with
  | none => st
  | some quiz =>
    let prevIndex := max (quiz.currentQuestionIndex - 1) 0
    { st with currentQuiz := some { quiz with currentQuestionIndex := prevIndex } }

/-- `quizActions.endQuiz()`: returns `null` only when there is no current
session (the source does not test `isCompleted`); otherwise scores the
session, appends the result to the history and marks the session completed.
`now` stands for `new Date().toISOString()`. -/
def endQuiz (now : String) (st : AppState) : AppState × Option QuizResult :=
  match st.currentQuiz with
  | none => (st, none)
  | some quiz =>
    let timeTaken := QUIZ_CONFIG_timeLimit - quiz.timeRemaining
    let correctAnswers := (quiz.answers.filter (fun a => a.isCorrect)).length
    let percentage := calculatePercentage correctAnswers quiz.questions.length
    let passed := decide (QUIZ_CONFIG_passingThreshold ≤ percentage)
    let topicPerformance := (TOPICS.map (fun topic =>
      let topicQuestions := quiz.questions.filter (fun q => q.topic == topic.id)
      let topicAnswers := topicQuestions.map
        (fun q => quiz.answers.find? (fun a => a.questionId == q.id))
      let correct := (topicAnswers.filter
        (fun a => (a.map (fun x => x.isCorrect)).getD false)).length
      ({ topicId := topic.id
       , correct := correct
       , total := topicQuestions.length
       , percentage := calculatePercentage correct topicQuestions.length } : TopicPerformance))).filter
      (fun tp => tp.total > 0)
    let result : QuizResult :=
      { id := quiz.id
      , date := now
      , score := correctAnswers
      , totalQuestions := quiz.questions.length
      , percentage := percentage
      , passed := passed
      , timeTaken := timeTaken
      , topicPerformance := topicPerformance }
    let updatedHistory := addQuizResult result st.quizHistory
    ({ st with
       currentQuiz := some { quiz with isCompleted := true, completedAt := some now }
     , quizHistory := updatedHistory }, some result)

/-- The value JavaScript binds to the `usedQuestionSets` parameter of
`selectQuestions`: either a proper array of id sets, or — as happens at the
only call site — a number. -/
inductive JSArg where
  | num : Nat → JSArg
  | sets : List (List String) → JSArg
deriving DecidableEq, Repr

/-- Dynamic-call semantics of `selectQuestions(allQuestions, arg)`: with an
array the function proceeds; with a number the evaluation of
`usedQuestionSets.slice(-3)` throws a `TypeError` (numbers have no
`slice`). -/
def selectQuestionsJS (R : Nat → Nat → Nat) (allQuestions : List Question) :
    JSArg → Except String (List Question)
  | JSArg.sets usedQuestionSets => Except.ok (selectQuestions R allQuestions usedQuestionSets)
  | JSArg.num _ => Except.error "TypeError: usedQuestionSets.slice is not a function"

/-- `quizActions.startQuiz(allQuestions)` (src/stores/quizStore.ts).  The
source calls
`selectQuestions(allQuestions, QUIZ_CONFIG.totalQuestions, history.usedQuestionSets)`
although `selectQuestions` is declared with parameters
`(allQuestions, usedQuestionSets)`: in JavaScript the extra third argument
is discarded and `usedQuestionSets` is bound to the number
`QUIZ_CONFIG.totalQuestions`.  `RC p` supplies the randomness of the
choice-shuffle of question `p`; `now` and `newId` stand for
`new Date().toISOString()` and `generateQuizId()`. -/
def startQuiz (R RC : Nat → Nat → Nat) (now newId : String)
    (allQuestions : List Question) (st : AppState) :
    Except String (AppState × QuizSession) :=
  (selectQuestionsJS R allQuestions (JSArg.num QUIZ_CONFIG_totalQuestions)).map
    (fun selectedQuestions =>
      let shuffledQuestions := (selectedQuestions.enum).map
        (fun p => shuffleChoices (RC p.1) p.2)
      let historyAfter := addUsedQuestionSet
        (selectedQuestions.map (fun q => q.id)) st.quizHistory
      let newQuiz : QuizSession :=
        { id := newId
        , startedAt := now
        , completedAt := none
        , questions := shuffledQuestions
        , answers := shuffledQuestions.map (fun q =>
            ({ questionId := q.id
             , selectedChoiceIndex := none
             , isCorrect := false
             , timeTaken := 0 } : QuizAnswer))
        , currentQuestionIndex := 0
        , timeRemaining := QUIZ_CONFIG_timeLimit
        , isCompleted := false
        , isPaused := false }
      ({ st with currentQuiz := some newQuiz, quizHistory := historyAfter }, newQuiz))

/-- **C4 (code bug).**  `startQuiz` can never create a session: the call
`selectQuestions(allQuestions, QUIZ_CONFIG.totalQuestions, history.usedQuestionSets)`
binds the number 40 to the `usedQuestionSets` parameter of the two-parameter
`selectQuestions` (TypeScript rejects this call; under JavaScript semantics
the extra argument is dropped), so `usedQuestionSets.slice(-3)` throws a
`TypeError` for every bank and every stored history, and no ids are appended
to the used-question-set history. -/
theorem startQuiz_throws (R RC : Nat → Nat → Nat) (now newId : String)
    (allQuestions : List Question) (st : AppState) :
    startQuiz R RC now newId allQuestions st =
      Except.error "TypeError: usedQuestionSets.slice is not a function" := rfl

/-- **C3 (amended).**  Ending a quiz scores the session: `score` counts the
answers marked correct, `percentage` is `Math.round((score/total)*100)`
computed in binary64 arithmetic (`calculatePercentage`), zero questions give
0 %, `passed` holds exactly when `percentage ≥ 80`, and in particular 31/40
gives 78 % (failing) while 32/40 gives exactly 80 % (passing). -/
theorem endQuiz_scoring (now : String) (st : AppState) (quiz : QuizSession)
    (h : st.currentQuiz = some quiz) :
    ∃ r : QuizResult, (endQuiz now st).2 = some r ∧
      r.score = (quiz.answers.filter (fun a => a.isCorrect)).length ∧
      r.totalQuestions = quiz.questions.length ∧
      r.percentage = calculatePercentage r.score quiz.questions.length ∧
      (r.passed = true ↔ 80 ≤ r.percentage) ∧
      (quiz.questions.length = 0 → r.percentage = 0) ∧
      (quiz.questions.length = 40 →
        (quiz.answers.filter (fun a => a.isCorrect)).length = 31 →
        r.percentage = 78 ∧ r.passed = false) ∧
      (quiz.questions.length = 40 →
        (quiz.answers.filter (fun a => a.isCorrect)).length = 32 →
        r.percentage = 80 ∧ r.passed = true) := by
  simp only [endQuiz, h]
  refine ⟨_, rfl, rfl, rfl, rfl, ?_, ?_, ?_, ?_⟩
  · simp only [QUIZ_CONFIG_passingThreshold]
    exact decide_eq_true_iff
  · intro h0
    simp [calculatePercentage, h0]
  · intro h40 h31
    rw [h40, h31]
    constructor
    · show calculatePercentage 31 40 = 78
      decide
    · show decide (QUIZ_CONFIG_passingThreshold ≤ calculatePercentage 31 40) = false
      decide
  · intro h40 h32
    rw [h40, h32]
    constructor
    · show calculatePercentage 32 40 = 80
      decide
    · show decide (QUIZ_CONFIG_passingThreshold ≤ calculatePercentage 32 40) = true
      decide

/-- A trivially shuffled question (identity choice order), for concrete
sessions. -/
def mkSQ (id : String) : ShuffledQuestion :=
  { toQuestion := mkQ id QuestionType.knowledge TopicId.institutions
  , shuffledChoices := (mkQ id QuestionType.knowledge TopicId.institutions).choices
  , originalToShuffledMap := [0, 1] }

/-- A concrete in-progress session with `total` questions of which the
first `correct` are answered correctly. -/
def mkSession (correct total : Nat) : QuizSession :=
  { id := "s1"
  , startedAt := "t0"
  , completedAt := none
  , questions := (List.range total).map (fun i => mkSQ ("q" ++ toString i))
  , answers := (List.range total).map (fun i =>
      ({ questionId := "q" ++ toString i
       , selectedChoiceIndex := some 0
       , isCorrect := decide (i < correct)
       , timeTaken := 0 } : QuizAnswer))
  , currentQuestionIndex := 0
  , timeRemaining := 0
  , isCompleted := false
  , isPaused := false }

/-- An app state holding the given session and an empty history. -/
def stateWith (s : QuizSession) : AppState :=
  { currentQuiz := some s
  , quizHistory := { results := [], usedQuestionSets := [], lastQuizDate := none }
  , isLoading := false }

/-- Counterexample to C3 as stated: for a session with 23 of 40 answers
correct the code produces 57 %, while `round(100 * 23 / 40) = round(57.5)`
is 58 (both with standard half-up and with banker's rounding, 58 being
even): the binary64 product `(23/40)*100` is 57.49999999999999…, just below
the tie. -/
theorem endQuiz_percentage_cex :
    ((endQuiz "t1" (stateWith (mkSession 23 40))).2.map
      (fun r => (r.score, r.totalQuestions, r.percentage, r.passed))) =
      some (23, 40, 57, false) ∧
    (200 * 23 + 40) / (2 * 40) = 58 := by
  constructor
  · decide
  · decide

/-- Witness for C3 (amended) at a concrete 31-of-40 session. -/
theorem endQuiz_scoring_witness :
    (stateWith (mkSession 31 40)).currentQuiz = some (mkSession 31 40) ∧
    (∃ r : QuizResult, (endQuiz "t1" (stateWith (mkSession 31 40))).2 = some r ∧
      r.score = ((mkSession 31 40).answers.filter (fun a => a.isCorrect)).length ∧
      r.totalQuestions = (mkSession 31 40).questions.length ∧
      r.percentage = calculatePercentage r.score (mkSession 31 40).questions.length ∧
      (r.passed = true ↔ 80 ≤ r.percentage) ∧
      ((mkSession 31 40).questions.length = 0 → r.percentage = 0) ∧
      ((mkSession 31 40).questions.length = 40 →
        ((mkSession 31 40).answers.filter (fun a => a.isCorrect)).length = 31 →
        r.percentage = 78 ∧ r.passed = false) ∧
      ((mkSession 31 40).questions.length = 40 →
        ((mkSession 31 40).answers.filter (fun a => a.isCorrect)).length = 32 →
        r.percentage = 80 ∧ r.passed = true)) :=
  ⟨rfl, endQuiz_scoring "t1" (stateWith (mkSession 31 40)) (mkSession 31 40) rfl⟩

/-- **C5 (amended).**  `endQuiz` returns `null` (and leaves the state
unchanged) only when there is no current session; called on an
already-completed session it recomputes the result and appends it to the
history a second time (the source never checks `isCompleted`). -/
theorem endQuiz_null_cases (now : String) (st : AppState) :
    (st.currentQuiz = none → endQuiz now st = (st, none)) ∧
    (∀ quiz : QuizSession, st.currentQuiz = some quiz → quiz.isCompleted = true →
      ∃ r : QuizResult, (endQuiz now st).2 = some r ∧
        (endQuiz now st).1.quizHistory.results = st.quizHistory.results ++ [r]) := by
  constructor
  · intro h
    simp [endQuiz, h]
  · intro quiz h _hc
    simp only [endQuiz, h, addQuizResult]
    exact ⟨_, rfl, rfl⟩

/-- A completed ten-question session. -/
def completedSession : QuizSession :=
  { mkSession 5 10 with isCompleted := true, completedAt := some "t1" }

/-- Counterexample to C5 as stated: calling `endQuiz` on an
already-completed session does not return `null` — it produces a result and
appends a second entry for the same session id to the history. -/
theorem endQuiz_completed_cex :
    completedSession.isCompleted = true ∧
    (endQuiz "t2" (stateWith completedSession)).2 ≠ none ∧
    (endQuiz "t2" (stateWith completedSession)).1.quizHistory.results.length =
      (stateWith completedSession).quizHistory.results.length + 1 := by
  refine ⟨rfl, ?_, ?_⟩
  · decide
  · decide

/-- The empty stored history. -/
def emptyHistory : QuizHistory := { results := [], usedQuestionSets := [], lastQuizDate := none }

/-- An app state with no current session. -/
def stNone : AppState := { currentQuiz := none, quizHistory := emptyHistory, isLoading := false }

/-- Witness for C5 (amended) at a concrete state without a session. -/
theorem endQuiz_null_cases_witness :
    stNone.currentQuiz = none ∧ endQuiz "t1" stNone = (stNone, none) :=
  ⟨rfl, (endQuiz_null_cases "t1" stNone).1 rfl⟩

theorem listGetInt_eq_none (l : List α) (i : Int)
    (h : i < 0 ∨ (l.length : Int) ≤ i) : listGetInt l i = none := by
  match i with
  | Int.ofNat n =>
    simp only [listGetInt]
    refine List.getElem?_eq_none ?_
    simp only [Int.ofNat_eq_natCast] at h
    rcases h with h | h
    · omega
    · omega
  | Int.negSucc n => rfl

/-- **C8.**  Navigation clamps into `[0, length-1]` and never errors:
`goToQuestion` stores the clamped index, `nextQuestion` and `prevQuestion`
stay within the ends, and `answerQuestion` with an out-of-range question
index leaves the state unchanged. -/
theorem navigation_clamps (st : AppState) (quiz : QuizSession)
    (h : st.currentQuiz = some quiz) (index choiceIndex : Int) :
    (∃ q1, (goToQuestion index st).currentQuiz = some q1 ∧
      q1.currentQuestionIndex = max 0 (min index ((quiz.questions.length : Int) - 1)) ∧
      (0 < quiz.questions.length →
        0 ≤ q1.currentQuestionIndex ∧
        q1.currentQuestionIndex ≤ (quiz.questions.length : Int) - 1)) ∧
    (∃ q2, (nextQuestion st).currentQuiz = some q2 ∧
      q2.currentQuestionIndex =
        min (quiz.currentQuestionIndex + 1) ((quiz.questions.length : Int) - 1) ∧
      (0 < quiz.questions.length → 0 ≤ quiz.currentQuestionIndex →
        quiz.currentQuestionIndex ≤ (quiz.questions.length : Int) - 1 →
        0 ≤ q2.currentQuestionIndex ∧
        q2.currentQuestionIndex ≤ (quiz.questions.length : Int) - 1)) ∧
    (∃ q3, (prevQuestion st).currentQuiz = some q3 ∧
      q3.currentQuestionIndex = max (quiz.currentQuestionIndex - 1) 0 ∧
      (0 < quiz.questions.length → 0 ≤ quiz.currentQuestionIndex →
        quiz.currentQuestionIndex ≤ (quiz.questions.length : Int) - 1 →
        0 ≤ q3.currentQuestionIndex ∧
        q3.currentQuestionIndex ≤ (quiz.questions.length : Int) - 1)) ∧
    ((index < 0 ∨ (quiz.questions.length : Int) ≤ index) →
      answerQuestion index choiceIndex st = st) := by
  refine ⟨?_, ?_, ?_, ?_⟩
  · simp only [goToQuestion, h]
    refine ⟨_, rfl, rfl, fun hlen => ?_⟩
    show 0 ≤ max 0 (min index ((quiz.questions.length : Int) - 1)) ∧
      max 0 (min index ((quiz.questions.length : Int) - 1)) ≤
        (quiz.questions.length : Int) - 1
    omega
  · simp only [nextQuestion, h]
    refine ⟨_, rfl, rfl, fun hlen h0 h1 => ?_⟩
    show 0 ≤ min (quiz.currentQuestionIndex + 1) ((quiz.questions.length : Int) - 1) ∧
      min (quiz.currentQuestionIndex + 1) ((quiz.questions.length : Int) - 1) ≤
        (quiz.questions.length : Int) - 1
    omega
  · simp only [prevQuestion, h]
    refine ⟨_, rfl, rfl, fun hlen h0 h1 => ?_⟩
    show 0 ≤ max (quiz.currentQuestionIndex - 1) 0 ∧
      max (quiz.currentQuestionIndex - 1) 0 ≤ (quiz.questions.length : Int) - 1
    omega
  · intro hout
    have hnone : listGetInt quiz.questions index = none := listGetInt_eq_none _ _ hout
    simp only [answerQuestion, h, hnone]
    cases hc : quiz.isCompleted <;> simp

/-- **C10.**  An out-of-range choice index on an in-range question is not a
no-op: `answerQuestion` records the out-of-range value as
`selectedChoiceIndex` and marks the answer incorrect
(`shuffledChoices[choiceIndex]?.isCorrect ?? false`). -/
theorem answerQuestion_out_of_range_choice (st : AppState) (quiz : QuizSession)
    (questionIndex choiceIndex : Int) (question : ShuffledQuestion) (answer : QuizAnswer)
    (h : st.currentQuiz = some quiz) (hc : quiz.isCompleted = false)
    (hq : listGetInt quiz.questions questionIndex = some question)
    (ha : listGetInt quiz.answers questionIndex = some answer)
    (hout : choiceIndex < 0 ∨ (question.shuffledChoices.length : Int) ≤ choiceIndex) :
    ∃ quiz2, (answerQuestion questionIndex choiceIndex st).currentQuiz = some quiz2 ∧
      quiz2.answers = quiz.answers.set questionIndex.toNat
        { answer with selectedChoiceIndex := some choiceIndex, isCorrect := false } ∧
      listGetInt quiz2.answers questionIndex =
        some { answer with selectedChoiceIndex := some choiceIndex, isCorrect := false } ∧
      (answer.selectedChoiceIndex ≠ some choiceIndex →
        answerQuestion questionIndex choiceIndex st ≠ st) := by
  have hcnone : listGetInt question.shuffledChoices choiceIndex = none :=
    listGetInt_eq_none _ _ hout
  simp only [answerQuestion, h, hc, hq, ha, hcnone, Option.map_none', Option.getD_none,
    Bool.false_eq_true, if_false]
  refine ⟨_, rfl, rfl, ?_, ?_⟩
  · match questionIndex, ha with
    | Int.negSucc n, ha => exact Option.noConfusion ha
    | Int.ofNat n, ha =>
      simp only [listGetInt] at ha ⊢
      have hlt : n < quiz.answers.length := by
        by_contra hge
        rw [List.getElem?_eq_none (by omega)] at ha
        cases ha
      exact List.getElem?_set_self hlt
  · intro hne heq
    have hstc := congrArg AppState.currentQuiz heq
    rw [h] at hstc
    have hqq := Option.some.inj hstc
    match questionIndex, ha with
    | Int.negSucc n, ha => exact Option.noConfusion ha
    | Int.ofNat n, ha =>
      have hanswers : quiz.answers.set (Int.ofNat n).toNat
          { answer with selectedChoiceIndex := some choiceIndex, isCorrect := false } =
          quiz.answers :=
        congrArg QuizSession.answers hqq
      simp only [listGetInt] at ha
      have hlt : n < quiz.answers.length := by
        by_contra hge
        rw [List.getElem?_eq_none (by omega)] at ha
        cases ha
      have hset : (quiz.answers.set (Int.ofNat n).toNat
          { answer with selectedChoiceIndex := some choiceIndex, isCorrect := false })[n]? =
          some { answer with selectedChoiceIndex := some choiceIndex, isCorrect := false } := by
        exact List.getElem?_set_self hlt
      rw [hanswers] at hset
      have hfields := Option.some.inj (hset.symm.trans ha)
      exact hne (congrArg QuizAnswer.selectedChoiceIndex hfields).symm

/-- Witness for C8 at a concrete session and an index past the end. -/
theorem navigation_clamps_witness :
    (stateWith (mkSession 5 10)).currentQuiz = some (mkSession 5 10) ∧
    ((99 : Int) < 0 ∨ ((mkSession 5 10).questions.length : Int) ≤ 99) ∧
    answerQuestion 99 0 (stateWith (mkSession 5 10)) = stateWith (mkSession 5 10) :=
  ⟨rfl, Or.inr (by decide),
   (navigation_clamps (stateWith (mkSession 5 10)) (mkSession 5 10) rfl 99 0).2.2.2
     (Or.inr (by decide))⟩

/-- The first answer of `mkSession 5 10`. -/
def answer0 : QuizAnswer :=
  { questionId := "q0", selectedChoiceIndex := some 0, isCorrect := true, timeTaken := 0 }

/-- Witness for C10: answering question 0 with choice index 7 (only 2
shuffled choices exist) records `selectedChoiceIndex = 7`, `isCorrect =
false`, and changes the state. -/
theorem answerQuestion_out_of_range_choice_witness :
    (stateWith (mkSession 5 10)).currentQuiz = some (mkSession 5 10) ∧
    ((7 : Int) < 0 ∨ (((mkSQ "q0").shuffledChoices.length : Int) ≤ 7)) ∧
    (∃ quiz2, (answerQuestion 0 7 (stateWith (mkSession 5 10))).currentQuiz = some quiz2 ∧
      quiz2.answers = (mkSession 5 10).answers.set (0 : Int).toNat
        { answer0 with selectedChoiceIndex := some 7, isCorrect := false } ∧
      listGetInt quiz2.answers 0 =
        some { answer0 with selectedChoiceIndex := some 7, isCorrect := false } ∧
      (answer0.selectedChoiceIndex ≠ some 7 →
        answerQuestion 0 7 (stateWith (mkSession 5 10)) ≠ stateWith (mkSession 5 10))) :=
  ⟨rfl, Or.inr (by decide),
   answerQuestion_out_of_range_choice (stateWith (mkSession 5 10)) (mkSession 5 10)
     0 7 (mkSQ "q0") answer0 rfl rfl (by decide) (by decide) (Or.inr (by decide))⟩

/-! ## History import (src/utils/localStorage.ts, `importQuizHistory`,
with the validation schemas of src/lib/schemas.ts)

The refactored store distinguishes the two failure kinds:
`JSON.parse` throwing a `SyntaxError` yields the outcome
`{ success: false, error: "Invalid JSON format" }`, while
`validateQuizHistory` (src/lib/schemas.ts) throwing on a wrong-shaped value
yields `{ success: false, error: "Invalid quiz history data structure" }`;
only on success is `saveQuizHistory` reached.  `JSON.parse` itself is the
host's parser; its outcome (syntax error or parsed value) is the input of
the model.  The zod schemas are embedded decoder by decoder; `parse`
throwing is modelled as `none`, and a `z.object` strips unknown keys, so a
decoder reads exactly the declared fields.  JSON numbers are modelled as
integers: every number the application itself persists is an integer, and
the schemas subject numbers only to the order bounds `min`/`max`. -/

/-- A parsed JSON value. -/
inductive JSValue where
  | null
  | bool (b : Bool)
  | num (n : Int)
  | str (s : String)
  | arr (elems : List JSValue)
  | obj (fields : List (String × JSValue))

/-- Field lookup in a JSON object; a missing key is `undefined`. -/
def jsLookup (fields : List (String × JSValue)) (key : String) : Option JSValue :=
  (fields.find? (fun p => p.1 == key)).map (fun p => p.2)

/-- `z.string()` -/
def decodeString : JSValue → Option String
  | JSValue.str s => some s
  | _ => none

/-- `z.string().min(1)` -/
def decodeNonEmptyString : JSValue → Option String
  | JSValue.str s => if s.length < 1 then none else some s
  | _ => none

/-- `z.number().min(0)` -/
def decodeNat : JSValue → Option Nat
  | JSValue.num n => if n < 0 then none else some n.toNat
  | _ => none

/-- `z.number().min(0).max(100)` -/
def decodePercentage : JSValue → Option Nat
  | JSValue.num n => if n < 0 then none else if 100 < n then none else some n.toNat
  | _ => none

/-- `z.number().nullable()` -/
def decodeNullableInt : JSValue → Option (Option Int)
  | JSValue.null => some none
  | JSValue.num n => some (some n)
  | _ => none

/-- `z.boolean()` -/
def decodeBool : JSValue → Option Bool
  | JSValue.bool b => some b
  | _ => none

/-- `QuestionTypeSchema = z.enum(['knowledge', 'situational'])` -/
def decodeQuestionType : JSValue → Option QuestionType
  | JSValue.str "knowledge" => some QuestionType.knowledge
  | JSValue.str "situational" => some QuestionType.situational
  | _ => none

/-- `TopicIdSchema`: the five topic-id literals. -/
def decodeTopicId : JSValue → Option TopicId
  | JSValue.str "principes_valeurs" => some TopicId.principes_valeurs
  | JSValue.str "institutions" => some TopicId.institutions
  | JSValue.str "droits_devoirs" => some TopicId.droits_devoirs
  | JSValue.str "histoire_geographie_culture" => some TopicId.histoire_geographie_culture
  | JSValue.str "vivre_france" => some TopicId.vivre_france
  | _ => none

/-- `DifficultySchema = z.enum(['easy', 'medium', 'hard'])` -/
def decodeDifficulty : JSValue → Option Difficulty
  | JSValue.str "easy" => some Difficulty.easy
  | JSValue.str "medium" => some Difficulty.medium
  | JSValue.str "hard" => some Difficulty.hard
  | _ => none

/-- `z.array(d)`: every element must validate. -/
def decodeList (d : JSValue → Option α) : JSValue → Option (List α)
  | JSValue.arr elems => elems.mapM d
  | _ => none

/-- `ChoiceSchema`: non-empty `label`, boolean `isCorrect`. -/
def decodeChoice (v : JSValue) : Option Choice :=
  match v with
  | JSValue.obj fields =>
    match (jsLookup fields "label").bind decodeNonEmptyString,
        (jsLookup fields "isCorrect").bind decodeBool with
    | some label, some isCorrect => some { label := label, isCorrect := isCorrect }
    | _, _ => none
  | _ => none

/-- `QuestionSchema`: non-empty `id` and `question`, type and topic enums,
2–6 choices of which at least one is correct, and the optional
`explanation` (default `""`) and `difficulty` (default `medium`). -/
def decodeQuestion (v : JSValue) : Option Question :=
  match v with
  | JSValue.obj fields =>
    let explanationField := match jsLookup fields "explanation" with
      | none => some ""
      | some e => decodeString e
    let difficultyField := match jsLookup fields "difficulty" with
      | none => some Difficulty.medium
      | some d => decodeDifficulty d
    match (jsLookup fields "id").bind decodeNonEmptyString,
        (jsLookup fields "question").bind decodeNonEmptyString,
        (jsLookup fields "type").bind decodeQuestionType,
        (jsLookup fields "topic").bind decodeTopicId,
        (jsLookup fields "choices").bind (decodeList decodeChoice),
        explanationField, difficultyField with
    | some id, some question, some ty, some topic, some choices, some explanation,
        some difficulty =>
      if choices.length < 2 then none
      else if 6 < choices.length then none
      else if (choices.filter (fun c => c.isCorrect)).length > 0 then
        some { id := id, question := question, type := ty, topic := topic
             , choices := choices, explanation := explanation, difficulty := difficulty }
      else none
    | _, _, _, _, _, _, _ => none
  | _ => none

/-- `QuizAnswerSchema`: `questionId` string, nullable numeric
`selectedChoiceIndex`, boolean `isCorrect`, `timeTaken ≥ 0`. -/
def decodeQuizAnswer (v : JSValue) : Option QuizAnswer :=
  match v with
  | JSValue.obj fields =>
    match (jsLookup fields "questionId").bind decodeString,
        (jsLookup fields "selectedChoiceIndex").bind decodeNullableInt,
        (jsLookup fields "isCorrect").bind decodeBool,
        (jsLookup fields "timeTaken").bind decodeNat with
    | some questionId, some selectedChoiceIndex, some isCorrect, some timeTaken =>
      some { questionId := questionId, selectedChoiceIndex := selectedChoiceIndex
           , isCorrect := isCorrect, timeTaken := timeTaken }
    | _, _, _, _ => none
  | _ => none

/-- `TopicPerformanceSchema`: topic id enum, `correct ≥ 0`, `total ≥ 0`,
`percentage` in `[0, 100]`. -/
def decodeTopicPerformance (v : JSValue) : Option TopicPerformance :=
  match v with
  | JSValue.obj fields =>
    match (jsLookup fields "topicId").bind decodeTopicId,
        (jsLookup fields "correct").bind decodeNat,
        (jsLookup fields "total").bind decodeNat,
        (jsLookup fields "percentage").bind decodePercentage with
    | some topicId, some correct, some total, some percentage =>
      some { topicId := topicId, correct := correct, total := total, percentage := percentage }
    | _, _, _, _ => none
  | _ => none

/-- `QuizResultSchema`: the required result fields with `score`,
`totalQuestions`, `timeTaken ≥ 0` and `percentage` in `[0, 100]`, the
topic-performance entries, and the optional `questions`/`answers` review
snapshots, validated by `QuestionSchema`/`QuizAnswerSchema` when present. -/
def decodeQuizResult (v : JSValue) : Option QuizResult :=
  match v with
  | JSValue.obj fields =>
    let questionsField := match jsLookup fields "questions" with
      | none => some none
      | some qv => (decodeList decodeQuestion qv).map some
    let answersField := match jsLookup fields "answers" with
      | none => some none
      | some av => (decodeList decodeQuizAnswer av).map some
    match (jsLookup fields "id").bind decodeString,
        (jsLookup fields "date").bind decodeString,
        (jsLookup fields "score").bind decodeNat,
        (jsLookup fields "totalQuestions").bind decodeNat,
        (jsLookup fields "percentage").bind decodePercentage,
        (jsLookup fields "passed").bind decodeBool,
        (jsLookup fields "timeTaken").bind decodeNat,
        (jsLookup fields "topicPerformance").bind (decodeList decodeTopicPerformance),
        questionsField, answersField with
    | some id, some date, some score, some totalQuestions, some percentage, some passed,
        some timeTaken, some topicPerformance, some questions, some answers =>
      some { id := id, date := date, score := score, totalQuestions := totalQuestions
           , percentage := percentage, passed := passed, timeTaken := timeTaken
           , topicPerformance := topicPerformance
           , questions := questions, answers := answers }
    | _, _, _, _, _, _, _, _, _, _ => none
  | _ => none

/-- `z.string().nullable()` (the `lastQuizDate` field). -/
def decodeDate : JSValue → Option (Option String)
  | JSValue.null => some none
  | JSValue.str s => some (some s)
  | _ => none

/-- `validateQuizHistory(data)` (src/lib/schemas.ts):
`QuizHistorySchema.parse(data)` — an object with `results` an array of
`QuizResultSchema` values, `usedQuestionSets` an array of string arrays and
`lastQuizDate` a nullable string; any violation throws, modelled as
`none`. -/
def validateQuizHistory (v : JSValue) : Option QuizHistory :=
  match v with
  | JSValue.obj fields =>
    match (jsLookup fields "results").bind (decodeList decodeQuizResult),
        (jsLookup fields "usedQuestionSets").bind (decodeList (decodeList decodeString)),
        (jsLookup fields "lastQuizDate").bind decodeDate with
    | some results, some usedQuestionSets, some lastQuizDate =>
      some { results := results, usedQuestionSets := usedQuestionSets
           , lastQuizDate := lastQuizDate }
    | _, _, _ => none
  | _ => none

/-- The import outcome reported by `importQuizHistory`. -/
structure ImportOutcome where
  success : Bool
  error : Option String
deriving DecidableEq, Repr

/-- `saveQuizHistory(history)`: overwrite the stored history (the quota
fallback path never triggers in the model store). -/
def saveQuizHistory (history _store : QuizHistory) : QuizHistory := history

/-- `importQuizHistory(jsonString)`: `JSON.parse`, then validate, then
save; a `SyntaxError` from the parser and a validation error are caught and
reported with distinct messages, and the store is written only on
success. -/
def importQuizHistory (store : QuizHistory) (input : Except Unit JSValue) :
    QuizHistory × ImportOutcome :=
  match input with
  | Except.error _ => (store, { success := false, error := some "Invalid JSON format" })
  | Except.ok parsed =>
    match validateQuizHistory parsed with
    | none => (store, { success := false, error := some "Invalid quiz history data structure" })
    | some validated => (saveQuizHistory validated store, { success := true, error := none })

/-- **C9.**  Import distinguishes syntactic from structural failure in the
reported outcome (distinct error messages) and leaves the stored history
unchanged on either failure. -/
theorem importQuizHistory_failures (store : QuizHistory) (input : Except Unit JSValue) :
    ((importQuizHistory store input).2.success = false →
      (importQuizHistory store input).1 = store) ∧
    (∀ e, input = Except.error e →
      (importQuizHistory store input).2.error = some "Invalid JSON format") ∧
    (∀ v, input = Except.ok v → validateQuizHistory v = none →
      (importQuizHistory store input).2.error = some "Invalid quiz history data structure") ∧
    some "Invalid JSON format" ≠ some "Invalid quiz history data structure" := by
  refine ⟨?_, ?_, ?_, by decide⟩
  · intro hfail
    match input with
    | Except.error e => rfl
    | Except.ok v =>
      simp only [importQuizHistory] at hfail ⊢
      match hv : validateQuizHistory v with
      | none => rfl
      | some validated =>
        rw [hv] at hfail
        cases hfail
  · intro e he
    rw [he]
    rfl
  · intro v hv hnone
    rw [hv]
    simp only [importQuizHistory, hnone]

/-- Witness for C9: a syntactically failing input against the empty store. -/
theorem importQuizHistory_failures_witness :
    (Except.error () : Except Unit JSValue) = Except.error () ∧
    (importQuizHistory emptyHistory (Except.error ())).2.error = some "Invalid JSON format" :=
  ⟨rfl, (importQuizHistory_failures emptyHistory (Except.error ())).2.1 () rfl⟩

/-- Sanity: the well-formed empty history validates (the success path is
reachable). -/
example :
    validateQuizHistory (JSValue.obj
      [("results", JSValue.arr []), ("usedQuestionSets", JSValue.arr []),
       ("lastQuizDate", JSValue.null)]) =
      some { results := [], usedQuestionSets := [], lastQuizDate := none } := by
  decide

/-- Sanity: Scenario D — valid JSON missing the `results` field is a
structural failure that leaves the store unchanged. -/
example :
    importQuizHistory emptyHistory (Except.ok (JSValue.obj [])) =
      (emptyHistory, { success := false, error := some "Invalid quiz history data structure" }) := by
  decide

/-- Sanity: a result whose `percentage` exceeds the schema's `max(100)`
bound is a structural failure. -/
example :
    validateQuizHistory (JSValue.obj
      [("results", JSValue.arr [JSValue.obj
          [("id", JSValue.str "r1"), ("date", JSValue.str "d"),
           ("score", JSValue.num 0), ("totalQuestions", JSValue.num 0),
           ("percentage", JSValue.num 101), ("passed", JSValue.bool false),
           ("timeTaken", JSValue.num 0), ("topicPerformance", JSValue.arr [])]]),
       ("usedQuestionSets", JSValue.arr []), ("lastQuizDate", JSValue.null)]) = none := rfl

/-- Sanity: a malformed entry in the optional `questions` snapshot is a
structural failure (the array is validated when present). -/
example :
    validateQuizHistory (JSValue.obj
      [("results", JSValue.arr [JSValue.obj
          [("id", JSValue.str "r1"), ("date", JSValue.str "d"),
           ("score", JSValue.num 0), ("totalQuestions", JSValue.num 0),
           ("percentage", JSValue.num 0), ("passed", JSValue.bool false),
           ("timeTaken", JSValue.num 0), ("topicPerformance", JSValue.arr []),
           ("questions", JSValue.arr [JSValue.obj []])]]),
       ("usedQuestionSets", JSValue.arr []), ("lastQuizDate", JSValue.null)]) = none := rfl

/-- The decoded value of the valid import sample below. -/
def sampleImportedHistory : QuizHistory :=
  { results :=
      [ { id := "r1"
        , date := "d"
        , score := 1
        , totalQuestions := 1
        , percentage := 100
        , passed := true
        , timeTaken := 3
        , topicPerformance := []
        , questions := some
            [ { id := "q1"
              , question := "t"
              , type := QuestionType.knowledge
              , topic := TopicId.institutions
              , choices :=
                  [ { label := "a", isCorrect := true }
                  , { label := "b", isCorrect := false } ]
              , explanation := ""
              , difficulty := Difficulty.medium } ]
        , answers := none } ]
  , usedQuestionSets := []
  , lastQuizDate := none }

/-- Sanity: a result with a well-formed optional `questions` snapshot
validates, with the `explanation` and `difficulty` defaults applied. -/
example :
    validateQuizHistory (JSValue.obj
      [("results", JSValue.arr [JSValue.obj
          [("id", JSValue.str "r1"), ("date", JSValue.str "d"),
           ("score", JSValue.num 1), ("totalQuestions", JSValue.num 1),
           ("percentage", JSValue.num 100), ("passed", JSValue.bool true),
           ("timeTaken", JSValue.num 3), ("topicPerformance", JSValue.arr []),
           ("questions", JSValue.arr [JSValue.obj
             [("id", JSValue.str "q1"), ("question", JSValue.str "t"),
              ("type", JSValue.str "knowledge"), ("topic", JSValue.str "institutions"),
              ("choices", JSValue.arr
                [JSValue.obj [("label", JSValue.str "a"), ("isCorrect", JSValue.bool true)],
                 JSValue.obj [("label", JSValue.str "b"), ("isCorrect", JSValue.bool false)]])]])]]),
       ("usedQuestionSets", JSValue.arr []), ("lastQuizDate", JSValue.null)]) =
      some sampleImportedHistory := rfl
